import Mathlib

/-!
Verification of the Tendayship backend billing/payment core.

Shallow embedding of:
- `backend/app/models/subscription.py` (data model, status enums, column constraints)
- `backend/app/crud/subscription_crud.py` (SubscriptionCRUD, PaymentCRUD)
- `backend/app/services/payment_service.py` (KakaoPayService)
- `backend/app/api/routes/subscription.py` (payment ready / approve / cancel routes)
- `backend/app/workers/billing_worker.py` (recurring billing)

Dates are modelled as day numbers (Nat); `date.today()` becomes an explicit
`today` parameter, `timedelta(days=30)` becomes `+ 30`. Database rows live in
lists; the column constraints declared in the SQLAlchemy model
(`group_id ... unique=True` on subscriptions, `transaction_id ... unique=True,
nullable=False` on payments) are enforced at insert time, which is where the
database raises them (at `flush`/`commit`). Gateway HTTP calls are external
input and are modelled as explicit result parameters.
-/

deriving instance DecidableEq for Except

namespace Tendayship

/-- `SubscriptionStatus` enum from `models/subscription.py`. -/
inductive SubscriptionStatus where
  | ACTIVE
  | CANCELLED
  | EXPIRED
  | PENDING
deriving DecidableEq, Repr

/-- `PaymentStatus` enum from `models/subscription.py`. -/
inductive PaymentStatus where
  | SUCCESS
  | FAILED
  | PENDING
  | REFUNDED
deriving DecidableEq, Repr

/-- A row of the `subscriptions` table (`models/subscription.py`, class
`Subscription`). Ids are Nats, dates are day numbers. -/
structure Subscription where
  id : Nat
  group_id : Nat
  user_id : Nat
  status : SubscriptionStatus
  start_date : Nat
  end_date : Option Nat
  next_billing_date : Option Nat
  cancel_reason : Option String
  amount : Nat
  payment_method : Option String
  pg_customer_key : Option String
deriving DecidableEq, Repr

/-- A row of the `payments` table (`models/subscription.py`, class `Payment`).
`pg_response_tid` models the `tid` field of the stored JSON `pg_response`
payload (the route's fallback lookup reads `pg_response.get("tid")`). -/
structure Payment where
  id : Nat
  subscription_id : Nat
  transaction_id : String
  pg_tid : Option String
  amount : Nat
  status : PaymentStatus
  payment_method : String
  paid_at : Option Nat
  pg_response_tid : Option String
deriving DecidableEq, Repr

/-- The persisted database state: the two tables plus a fresh-id counter. -/
structure DBState where
  subscriptions : List Subscription
  payments : List Payment
  nextId : Nat
deriving DecidableEq, Repr

/-- Database errors surfaced at flush/commit time. `uniqueGroup` is the
`unique=True` constraint on `subscriptions.group_id`; `uniqueTid` is the
`unique=True` constraint on `payments.transaction_id`; `notNullTid` is its
`nullable=False`; `injected` models any other local failure of the
transaction (connection loss, etc.). -/
inductive DBError where
  | uniqueGroup
  | uniqueTid
  | notNullTid
  | notFound
  | injected
deriving DecidableEq, Repr

/-- Python truthiness of an optional string (`if pg_customer_key:`):
`None` and the empty string are falsy. -/
def strTruthy : Option String → Bool
  | none => false
  | some s => !s.isEmpty

/-- INSERT into `subscriptions`: the declared `unique=True` on `group_id`
rejects a second row for the same group. -/
def insertSubscription (db : DBState) (r : Subscription) : Except DBError DBState :=
  if db.subscriptions.any (fun x => x.group_id == r.group_id) then
    .error .uniqueGroup
  else
    .ok { db with subscriptions := db.subscriptions ++ [r], nextId := db.nextId + 1 }

/-- INSERT into `payments`: the declared `unique=True` on `transaction_id`
rejects a duplicate approval id. -/
def insertPayment (db : DBState) (p : Payment) : Except DBError DBState :=
  if db.payments.any (fun x => x.transaction_id == p.transaction_id) then
    .error .uniqueTid
  else
    .ok { db with payments := db.payments ++ [p], nextId := db.nextId + 1 }

/-! ## SubscriptionCRUD (`crud/subscription_crud.py`) -/

/-- `SubscriptionCRUD.get_by_group_id_simple`: first subscription of the group
with status ACTIVE. -/
def get_by_group_id_simple (db : DBState) (group_id : Nat) : Option Subscription :=
  db.subscriptions.find? (fun r => r.group_id == group_id && r.status == .ACTIVE)

/-- `SubscriptionCRUD.get_any_by_group_id`: any subscription row of the group,
regardless of status. (The source orders by `created_at` descending; under the
unique-group constraint at most one row exists, so taking the first match is
faithful.) -/
def get_any_by_group_id (db : DBState) (group_id : Nat) : Option Subscription :=
  db.subscriptions.find? (fun r => r.group_id == group_id)

/-- Modelled from the spec: `BaseCRUD.get` (file `crud/base.py` is not in the
source snapshot) — the standard primary-key lookup used by the routes and by
`cancel_subscription`. -/
def getSubscription (db : DBState) (subscription_id : Nat) : Option Subscription :=
  db.subscriptions.find? (fun r => r.id == subscription_id)

/-- The in-place mutation performed by the `existing` branch of
`SubscriptionCRUD.upsert_activate_subscription` (lines 50-61): reactivate the
row with a fresh start date; `next_billing_date` is set to today + 30
unconditionally; the mandate key is overwritten only when a truthy new key is
supplied (`if pg_customer_key:`), otherwise the old value stays. -/
def upsertUpdateRow (today : Nat) (user_id : Nat) (amount : Nat)
    (pg_customer_key : Option String) (r : Subscription) : Subscription :=
  { r with
    user_id := user_id
    status := .ACTIVE
    start_date := today
    end_date := none
    next_billing_date := some (today + 30)
    amount := amount
    payment_method := some (if strTruthy pg_customer_key then "kakao_pay_subscription" else "kakao_pay")
    pg_customer_key := if strTruthy pg_customer_key then pg_customer_key else r.pg_customer_key
    cancel_reason := none }

/-- The fresh row built by the `else` branch of
`upsert_activate_subscription` (lines 63-73). -/
def upsertNewRow (today : Nat) (group_id user_id amount : Nat)
    (pg_customer_key : Option String) (id : Nat) : Subscription :=
  { id := id
    group_id := group_id
    user_id := user_id
    status := .ACTIVE
    start_date := today
    end_date := none
    next_billing_date := some (today + 30)
    cancel_reason := none
    amount := amount
    payment_method := some (if strTruthy pg_customer_key then "kakao_pay_subscription" else "kakao_pay")
    pg_customer_key := pg_customer_key }

/-- `upsert_activate_subscription` with the branch decision taken from an
explicitly supplied observation `obs` (the row the transaction read, which in
a race may be stale with respect to the state the write lands on). The update
branch issues its UPDATE against the observed row id; the insert branch is
re-checked against the unique-group constraint at flush time. Returns the
activated subscription id. -/
def upsert_with_observation (today : Nat) (db : DBState) (obs : Option Subscription)
    (group_id user_id amount : Nat) (pg_customer_key : Option String) :
    Except DBError (DBState × Nat) :=
  match obs with
  | some existing =>
      .ok ({ db with subscriptions :=
        db.subscriptions.map (fun r =>
          if r.id == existing.id then upsertUpdateRow today user_id amount pg_customer_key r else r) },
        existing.id)
  | none =>
      match insertSubscription db
          (upsertNewRow today group_id user_id amount pg_customer_key db.nextId) with
      | .error e => .error e
      | .ok db' => .ok (db', db.nextId)

/-- `SubscriptionCRUD.upsert_activate_subscription` (lines 48-75): looks up
any existing row for the group and either reactivates it in place or inserts
a fresh ACTIVE row. -/
def upsert_activate_subscription (today : Nat) (db : DBState)
    (group_id user_id amount : Nat) (pg_customer_key : Option String) :
    Except DBError (DBState × Nat) :=
  upsert_with_observation today db (get_any_by_group_id db group_id)
    group_id user_id amount pg_customer_key

/-- `SubscriptionCRUD.cancel_subscription` (lines 77-85): set CANCELLED,
end date today, record the reason, and clear the recurring mandate key. -/
def cancel_subscription_crud (today : Nat) (db : DBState) (subscription_id : Nat)
    (reason : String) : Except DBError DBState :=
  match getSubscription db subscription_id with
  | none => .error .notFound
  | some _ =>
      .ok { db with subscriptions :=
        db.subscriptions.map (fun r =>
          if r.id == subscription_id then
            { r with
              status := .CANCELLED
              end_date := some today
              cancel_reason := some reason
              pg_customer_key := none }
          else r) }

/-- `SubscriptionCRUD.expire_subscription` (lines 87-93): UPDATE setting
EXPIRED, end date today and the reason. Note: it does not touch
`pg_customer_key`. -/
def expire_subscription (today : Nat) (db : DBState) (subscription_id : Nat)
    (reason : String) : DBState :=
  { db with subscriptions :=
    db.subscriptions.map (fun r =>
      if r.id == subscription_id then
        { r with status := .EXPIRED, end_date := some today, cancel_reason := some reason }
      else r) }

/-- `SubscriptionCRUD.get_due_subscriptions` (lines 95-106): ACTIVE rows with
a non-NULL mandate key whose `next_billing_date <= today` (a NULL billing date
is not selected by the SQL comparison). -/
def get_due_subscriptions (today : Nat) (db : DBState) : List Subscription :=
  db.subscriptions.filter (fun r =>
    r.status == .ACTIVE
      && (match r.next_billing_date with
          | some d => d ≤ today
          | none => false)
      && r.pg_customer_key.isSome)

/-- `SubscriptionCRUD.update_next_billing_date` (lines 108-114): UPDATE
setting `next_billing_date = today + 30`. -/
def update_next_billing_date (today : Nat) (db : DBState) (subscription_id : Nat) : DBState :=
  { db with subscriptions :=
    db.subscriptions.map (fun r =>
      if r.id == subscription_id then { r with next_billing_date := some (today + 30) } else r) }

/-! ## PaymentCRUD (`crud/subscription_crud.py`, lines 116-151) -/

/-- `PaymentCRUD.create_payment` (lines 118-132): build the row (stamping
`paid_at` when the status is SUCCESS) and flush it, which is where the
NOT NULL and UNIQUE constraints on `transaction_id` fire. -/
def create_payment (today : Nat) (db : DBState) (subscription_id : Nat)
    (transaction_id : Option String) (amount : Nat) (payment_method : String)
    (status : PaymentStatus) (pg_tid : Option String) (pg_response_tid : Option String) :
    Except DBError (DBState × Nat) :=
  match transaction_id with
  | none => .error .notNullTid
  | some aid =>
      match insertPayment db
          { id := db.nextId
            subscription_id := subscription_id
            transaction_id := aid
            pg_tid := pg_tid
            amount := amount
            status := status
            payment_method := payment_method
            paid_at := if status == .SUCCESS then some today else none
            pg_response_tid := pg_response_tid } with
      | .error e => .error e
      | .ok db' => .ok (db', db.nextId)

/-- `PaymentCRUD.get_recent_payment` (lines 140-144): the latest payment of
the subscription (rows are appended in creation order, so the last match is
the most recent). -/
def get_recent_payment (db : DBState) (subscription_id : Nat) : Option Payment :=
  (db.payments.filter (fun p => p.subscription_id == subscription_id)).getLast?

/-- `PaymentCRUD.mark_refunded` (lines 146-151). -/
def mark_refunded (db : DBState) (payment_id : Nat) : Except DBError DBState :=
  match db.payments.find? (fun p => p.id == payment_id) with
  | none => .error .notFound
  | some _ =>
      .ok { db with payments :=
        db.payments.map (fun p =>
          if p.id == payment_id then { p with status := .REFUNDED } else p) }

/-! ## KakaoPayService (`services/payment_service.py`) -/

/-- The in-flight payment context stored in `self._payment_cache`
(`payment_info` built at lines 67-76 of `create_payment_ready`). -/
structure PaymentInfo where
  tid : String
  partner_order_id : String
  partner_user_id : String
  user_id : Nat
  group_id : Nat
  amount : Nat
  is_subscription : Bool
deriving DecidableEq, Repr

/-- The process-wide `_payment_cache : Dict[str, Dict]`, as an association
list. -/
abbrev PaymentCache := List (String × PaymentInfo)

/-- `cache.get(key)`. -/
def cacheGet (c : PaymentCache) (k : String) : Option PaymentInfo :=
  (c.find? (fun kv => kv.fst == k)).map Prod.snd

/-- `del cache[key]` (guarded by `if key in cache` in the source, so absent
keys are a no-op). -/
def cacheRemove (c : PaymentCache) (k : String) : PaymentCache :=
  c.filter (fun kv => kv.fst != k)

/-- `cache[key] = value` (dict assignment overwrites). -/
def cachePut (c : PaymentCache) (k : String) (v : PaymentInfo) : PaymentCache :=
  cacheRemove c k ++ [(k, v)]

/-- Outcome of one HTTP call to the gateway, as seen by the service code:
`ok` is a 2xx response with parsed body, `httpError` is
`httpx.HTTPStatusError` raised by `raise_for_status` (non-success status,
with the extracted error message), `otherError` is any other exception
(timeout, connection failure, ...). -/
inductive GatewayResult (α : Type) where
  | ok (response : α)
  | httpError (msg : String)
  | otherError (msg : String)
deriving DecidableEq, Repr

/-- Parsed body of a successful `/online/v1/payment/ready` response:
`result.get("tid")` may be absent, plus the two redirect URLs. -/
structure ReadyGwResponse where
  tid : Option String
  next_redirect_pc_url : String
  next_redirect_mobile_url : String
deriving DecidableEq, Repr

/-- The value returned by `create_payment_ready` (lines 82-88). -/
structure ReadyResult where
  tid : String
  next_redirect_pc_url : String
  next_redirect_mobile_url : String
  partner_order_id : String
  partner_user_id : String
deriving DecidableEq, Repr

/-- The redirect URLs embedded in the `/ready` request payload (lines 40-42):
each carries the freshly generated `temp_id` as a query parameter. The base
URLs come from settings. -/
structure ReadyPayload where
  approval_url : String
  cancel_url : String
  fail_url : String
deriving DecidableEq, Repr

/-- `partner_order_id = f"FNS_{group_id[:8]}_{int(datetime.now().timestamp())}"`
with the group id rendered as a decimal string and `now` the timestamp. -/
def partnerOrderId (group_id : Nat) (now : Nat) : String :=
  "FNS_" ++ (toString group_id).take 8 ++ "_" ++ toString now

/-- `KakaoPayService.create_payment_ready` (lines 32-100). The fresh
`temp_payment_id` (a uuid4) and the current timestamp are parameters, as are
the configured redirect base URLs and the gateway's response. On gateway
success the context is stored in the cache under both the temp id and the
gateway tid, and the tid, redirect URLs and partner ids are returned. On an
HTTP error the exception message is prefixed as at line 97; other errors are
re-raised. The request payload (with the temp-id-bearing callback URLs) is
returned alongside for inspection. -/
def create_payment_ready (user_id group_id : Nat) (amount : Nat)
    (is_subscription : Bool) (temp_payment_id : String) (now : Nat)
    (successUrl cancelUrl failUrl : String) (cache : PaymentCache)
    (gw : GatewayResult ReadyGwResponse) :
    ReadyPayload × Except String (PaymentCache × ReadyResult) :=
  let payload : ReadyPayload :=
    { approval_url := successUrl ++ "?temp_id=" ++ temp_payment_id
      cancel_url := cancelUrl ++ "?temp_id=" ++ temp_payment_id
      fail_url := failUrl ++ "?temp_id=" ++ temp_payment_id }
  match gw with
  | .httpError msg => (payload, .error ("결제 준비 실패: " ++ msg))
  | .otherError msg => (payload, .error msg)
  | .ok r =>
      match r.tid with
      | none => (payload, .error "결제 TID를 받지 못했습니다.")
      | some tid =>
          let info : PaymentInfo :=
            { tid := tid
              partner_order_id := partnerOrderId group_id now
              partner_user_id := toString user_id
              user_id := user_id
              group_id := group_id
              amount := amount
              is_subscription := is_subscription }
          let c1 := cachePut cache temp_payment_id info
          let c2 := cachePut c1 tid info
          (payload, .ok (c2,
            { tid := tid
              next_redirect_pc_url := r.next_redirect_pc_url
              next_redirect_mobile_url := r.next_redirect_mobile_url
              partner_order_id := partnerOrderId group_id now
              partner_user_id := toString user_id }))

/-- Parsed body of a successful `/online/v1/payment/approve` response:
`aid` (approval id), for recurring setup `sid`, and the `tid` echoed in the
body (read back from the stored `pg_response` JSON by the cancel route's
fallback). -/
structure ApproveGwResponse where
  aid : Option String
  sid : Option String
  tid : Option String
deriving DecidableEq, Repr

/-- The dict returned by `approve_payment` on success (lines 160-167). -/
structure ApproveResult where
  aid : Option String
  sid : Option String
  tid : String
  subscription_id : Nat
  payment_id : Nat
  user_id : Nat
deriving DecidableEq, Repr

/-- A gateway cancel request issued by the orchestrator:
(tid, cancel_amount, cancel_reason). -/
structure CancelCall where
  tid : String
  cancel_amount : Nat
  cancel_reason : String
deriving DecidableEq, Repr

/-- Full observable outcome of one `approve_payment` call: the value or
error, the database state after commit/rollback, the service cache, the
compensating gateway cancel calls that were attempted, and whether the
gateway approve call itself was made. -/
structure ApproveOutcome where
  result : Except String ApproveResult
  db : DBState
  cache : PaymentCache
  cancelCalls : List CancelCall
  approveCalled : Bool
deriving DecidableEq, Repr

/-- The duplicate-subscription pre-check of `approve_payment` (lines
110-114): only for recurring setup, and only rejecting when the group has an
ACTIVE subscription whose `pg_customer_key` is truthy. -/
def duplicateCheck (db : DBState) (info : PaymentInfo) : Bool :=
  info.is_subscription &&
    (match get_by_group_id_simple db info.group_id with
     | some existing => strTruthy existing.pg_customer_key
     | none => false)

/-- `KakaoPayService.approve_payment` (lines 102-190) with the two reads of
the upsert made explicit: `dupSeen` is the result the duplicate pre-check
observed and `obs` the row the upsert's `get_any_by_group_id` observed — in
the sequential (race-free) case these are read from the current state, see
`approve_payment` below. `commitFails` injects a failure of the final local
commit. Control flow follows the source:

* cache miss on `tid` → `ValueError`, caught by the generic handler, which
  deletes the `tid` cache entry and re-raises;
* duplicate pre-check fires → exception before any gateway call, same
  generic handler;
* the gateway approve is then called: an `httpx.HTTPStatusError` is
  re-raised from its own handler (which does NOT delete the cache entry),
  any other gateway error goes to the generic handler (which does);
* on gateway success, the upsert, the payment flush and the commit run in
  one local transaction; on any database error the transaction is rolled
  back, a compensating `cancel_payment(tid, int(amount), "DB 저장 실패 원복")`
  is attempted, and the error is re-raised through the generic handler
  (deleting the `tid` entry);
* on success the `tid` entry is deleted after the commit. -/
def approve_core (today : Nat) (cache : PaymentCache) (db : DBState) (tid : String)
    (dupSeen : Option Subscription) (obs : Option Subscription)
    (gw : GatewayResult ApproveGwResponse) (commitFails : Bool) : ApproveOutcome :=
  match cacheGet cache tid with
  | none =>
      { result := .error ("결제 정보를 찾을 수 없습니다: tid=" ++ tid)
        db := db, cache := cacheRemove cache tid, cancelCalls := [], approveCalled := false }
  | some info =>
      if info.is_subscription &&
          (match dupSeen with
           | some existing => strTruthy existing.pg_customer_key
           | none => false) then
        { result := .error "이미 활성 정기구독이 존재합니다."
          db := db, cache := cacheRemove cache tid, cancelCalls := [], approveCalled := false }
      else
        match gw with
        | .httpError msg =>
            { result := .error ("결제 승인 실패: " ++ msg)
              db := db, cache := cache, cancelCalls := [], approveCalled := true }
        | .otherError msg =>
            { result := .error msg
              db := db, cache := cacheRemove cache tid, cancelCalls := [], approveCalled := true }
        | .ok resp =>
            let attempt : Except DBError (DBState × Nat × Nat) :=
              match upsert_with_observation today db obs
                  info.group_id info.user_id info.amount
                  (if info.is_subscription then resp.sid else none) with
              | .error e => .error e
              | .ok (db1, subId) =>
                  match create_payment today db1 subId resp.aid info.amount
                      (if info.is_subscription then "kakao_pay_subscription" else "kakao_pay")
                      .SUCCESS (some tid) resp.tid with
                  | .error e => .error e
                  | .ok (db2, payId) =>
                      if commitFails then .error .injected else .ok (db2, subId, payId)
            match attempt with
            | .ok (db2, subId, payId) =>
                { result := .ok
                    { aid := resp.aid, sid := resp.sid, tid := tid
                      subscription_id := subId, payment_id := payId, user_id := info.user_id }
                  db := db2, cache := cacheRemove cache tid
                  cancelCalls := [], approveCalled := true }
            | .error _ =>
                { result := .error "결제 승인 후 내부 저장 실패로 결제를 원복했습니다"
                  db := db, cache := cacheRemove cache tid
                  cancelCalls := [{ tid := tid, cancel_amount := info.amount, cancel_reason := "DB 저장 실패 원복" }]
                  approveCalled := true }

/-- `KakaoPayService.approve_payment`, sequential case: both reads (duplicate
pre-check and the upsert's group lookup) observe the current database
state. -/
def approve_payment (today : Nat) (cache : PaymentCache) (db : DBState) (tid : String)
    (gw : GatewayResult ApproveGwResponse) (commitFails : Bool) : ApproveOutcome :=
  approve_core today cache db tid
    (get_by_group_id_simple db
      (match cacheGet cache tid with | some info => info.group_id | none => 0))
    (get_any_by_group_id db
      (match cacheGet cache tid with | some info => info.group_id | none => 0))
    gw commitFails

/-- Outcome of the `/online/v1/payment/cancel` HTTP call: success, a
non-success HTTP status carrying the gateway's machine-readable `code` and
`msg`, or any other exception. -/
inductive CancelGwOutcome where
  | ok
  | httpError (code : Int) (msg : String)
  | otherError (msg : String)
deriving DecidableEq, Repr

/-- `KakaoPayService.cancel_payment` (lines 250-283), as the error message
the caller's `str(payment_error)` would see. Code `-780` (already cancelled)
is raised with its own distinguishing message (line 276); any other HTTP
error becomes `결제 취소 실패: ...` (line 280); other exceptions propagate
unchanged. -/
def cancel_payment_svc (gw : CancelGwOutcome) : Except String Unit :=
  match gw with
  | .ok => .ok ()
  | .httpError code msg =>
      if code == -780 then
        .error ("이미 취소된 결제입니다 (" ++ toString code ++ "): " ++ msg)
      else
        .error ("결제 취소 실패: " ++ msg)
  | .otherError msg => .error msg

/-- Parsed body of a successful `/online/v1/payment/subscription` (recurring
charge) response: `result.get("aid")` and `result.get("tid")`. -/
structure RecurGwResponse where
  aid : Option String
  tid : Option String
deriving DecidableEq, Repr

/-- Outcome of one `charge_recurring_payment` call. -/
structure RecurOutcome where
  result : Except String Unit
  db : DBState
deriving DecidableEq, Repr

/-- `KakaoPayService.charge_recurring_payment` (lines 192-248). On gateway
success a SUCCESS payment is recorded with `transaction_id = aid` and
`pg_tid = result.get("tid")`, the next billing date is advanced, and the
transaction commits. On `httpx.HTTPStatusError` the subscription is expired
with the failure message and that is committed (lines 242-243). On any other
error the transaction is rolled back and the error re-raised (lines
245-248). -/
def charge_recurring_payment (today : Nat) (db : DBState) (sub : Subscription)
    (gw : GatewayResult RecurGwResponse) : RecurOutcome :=
  match gw with
  | .ok resp =>
      let attempt : Except DBError DBState :=
        match create_payment today db sub.id resp.aid sub.amount
            "kakao_pay_subscription" .SUCCESS resp.tid resp.tid with
        | .error e => .error e
        | .ok (db1, _) => .ok (update_next_billing_date today db1 sub.id)
      match attempt with
      | .ok db2 => { result := .ok (), db := db2 }
      | .error _ => { result := .error "정기결제 처리 중 오류", db := db }
  | .httpError msg =>
      { result := .error ("정기결제 실패: " ++ msg)
        db := expire_subscription today db sub.id ("결제실패: " ++ msg) }
  | .otherError msg =>
      { result := .error msg, db := db }

/-! ## HTTP routes (`api/routes/subscription.py`) -/

/-- A requester's family-group membership row, as far as the payment routes
consult it (`FamilyMember.group_id` and `FamilyMember.role`). -/
structure Membership where
  group_id : Nat
  role : String
deriving DecidableEq, Repr

/-- Modelled from the spec: `core/constants.py` is not in the source
snapshot; `ROLE_LEADER` is the leader role tag that the routes compare the
requester's role against. Its concrete value is irrelevant to the claims:
only the equality test matters. -/
def ROLE_LEADER : String := "leader"

/-- Errors raised by the `/payment/ready` route: 404 (no membership),
403 (not the leader), 400 (active subscription already exists),
500 (anything the service raised). -/
inductive ReadyRouteError where
  | notInGroup
  | notLeader
  | alreadyActive
  | internalError (msg : String)
deriving DecidableEq, Repr

/-- The `PaymentReadyResponse` schema (`schemas/subscription.py`, lines
82-87): exactly these four fields and no others. -/
structure PaymentReadyResponse where
  tid : String
  next_redirect_pc_url : String
  next_redirect_mobile_url : String
  partner_order_id : String
deriving DecidableEq, Repr

/-- The `/payment/ready` route (`ready_payment`, lines 27-70): membership
check, leader check, active-subscription check, then the service's payment
ready call (6900 won, single payment), whose successful result is projected
onto the `PaymentReadyResponse` schema. The route's `create_single_payment`
is not in the source snapshot; the claim's cited service operation is
`create_payment_ready`, which we use with `is_subscription := false` (a
single payment). -/
def ready_payment (db : DBState) (membership : Option Membership)
    (user_id : Nat) (temp_payment_id : String) (now : Nat)
    (successUrl cancelUrl failUrl : String) (cache : PaymentCache)
    (gw : GatewayResult ReadyGwResponse) :
    Except ReadyRouteError (ReadyPayload × PaymentCache × PaymentReadyResponse) :=
  match membership with
  | none => .error .notInGroup
  | some m =>
      if m.role != ROLE_LEADER then .error .notLeader
      else
        match get_by_group_id_simple db m.group_id with
        | some _ => .error .alreadyActive
        | none =>
            let (payload, res) := create_payment_ready user_id m.group_id 6900 false
              temp_payment_id now successUrl cancelUrl failUrl cache gw
            match res with
            | .error msg => .error (.internalError ("결제 준비 중 오류: " ++ msg))
            | .ok (c2, r) =>
                .ok (payload, c2,
                  { tid := r.tid
                    next_redirect_pc_url := r.next_redirect_pc_url
                    next_redirect_mobile_url := r.next_redirect_mobile_url
                    partner_order_id := r.partner_order_id })

/-- Where the `/approve` route redirects the browser. -/
inductive RedirectTarget where
  | success (subscription_id : Nat)
  | fail (errMsg : String)
deriving DecidableEq, Repr

/-- Full observable outcome of one `/approve` route invocation. -/
structure RouteApproveOutcome where
  redirect : RedirectTarget
  db : DBState
  cache : PaymentCache
  cancelCalls : List CancelCall
deriving DecidableEq, Repr

/-- The `/approve` route (`approve_payment` route handler, lines 72-107):
resolves the cached context by `temp_id`, extracts the actual gateway `tid`,
delegates to the service `approve_payment`, and on success deletes both the
`temp_id` and `tid` cache entries; on any exception it deletes the `temp_id`
entry and redirects to the failure page. -/
def route_approve (today : Nat) (cache : PaymentCache) (db : DBState)
    (temp_id : String) (gw : GatewayResult ApproveGwResponse) (commitFails : Bool) :
    RouteApproveOutcome :=
  match cacheGet cache temp_id with
  | none =>
      { redirect := .fail ("결제 정보를 찾을 수 없습니다: temp_id=" ++ temp_id)
        db := db, cache := cacheRemove cache temp_id, cancelCalls := [] }
  | some info =>
      if info.tid.isEmpty then
        { redirect := .fail "결제 TID를 찾을 수 없습니다"
          db := db, cache := cacheRemove cache temp_id, cancelCalls := [] }
      else
        let o := approve_payment today cache db info.tid gw commitFails
        match o.result with
        | .ok res =>
            { redirect := .success res.subscription_id
              db := o.db
              cache := cacheRemove (cacheRemove o.cache temp_id) info.tid
              cancelCalls := o.cancelCalls }
        | .error msg =>
            { redirect := .fail msg
              db := o.db
              cache := cacheRemove o.cache temp_id
              cancelCalls := o.cancelCalls }

/-- Is `pat` a prefix of the given character list? -/
def listPrefixOf : List Char → List Char → Bool
  | [], _ => true
  | _ :: _, [] => false
  | a :: as, b :: bs => a == b && listPrefixOf as bs

/-- Does `pat` occur as a contiguous run of the given character list? -/
def listInfixOf (pat : List Char) : List Char → Bool
  | [] => pat.isEmpty
  | c :: t => listPrefixOf pat (c :: t) || listInfixOf pat t

/-- Python's `pat in s` substring test, for the route's error-string
classification. -/
def containsSubstr (s pat : String) : Bool :=
  listInfixOf pat.data s.data

/-- Errors raised by the `/{subscription_id}/cancel` route: 404, 403 (not
the owner), or 500 (rolled back). -/
inductive CancelRouteError where
  | notFound
  | forbidden
  | internalError
deriving DecidableEq, Repr

/-- The JSON body returned by the cancel route. `payment_cancel_status` is
absent (`none`) in the idempotent already-cancelled branch. -/
structure CancelRouteResponse where
  message : String
  cancelled_at : Option Nat
  refund_amount : Nat
  payment_cancel_status : Option String
deriving DecidableEq, Repr

/-- Observable outcome of a successful `/{subscription_id}/cancel`
invocation: the response body, the database state, the gateway cancel calls
attempted, and whether a commit was issued. -/
structure CancelRouteOutcome where
  response : CancelRouteResponse
  db : DBState
  cancelCalls : List CancelCall
  committed : Bool
deriving DecidableEq, Repr

/-- The best-effort refund attempt of the cancel route (lines 213-245): look
up the most recent payment, pick the tid used for the gateway cancel, issue
it and classify the outcome, marking the payment REFUNDED on success. The
ledger state after the attempt, the refund amount, the
`payment_cancel_status` tag and the gateway cancel calls issued are
returned. -/
def cancelRefundStep (db : DBState) (subscription_id : Nat) (reason : String)
    (gwCancel : CancelGwOutcome) :
    Except DBError (DBState × Nat × String × List CancelCall) :=
  match get_recent_payment db subscription_id with
  | none => .ok (db, 0, "no_payment", [])
  | some p =>
      match (if strTruthy p.pg_tid then p.pg_tid
             else if strTruthy p.pg_response_tid then p.pg_response_tid
             else none) with
      | none => .ok (db, 0, "failed", [])
      | some t =>
          match cancel_payment_svc gwCancel with
          | .ok _ =>
              match mark_refunded db p.id with
              | .error e => .error e
              | .ok db1 => .ok (db1, p.amount, "success",
                  [{ tid := t, cancel_amount := p.amount, cancel_reason := reason }])
          | .error msg =>
              if containsSubstr msg "invalid tid" || containsSubstr msg "-721"
                  || containsSubstr msg "-780" then
                .ok (db, p.amount, "already_cancelled",
                  [{ tid := t, cancel_amount := p.amount, cancel_reason := reason }])
              else
                .ok (db, 0, "failed",
                  [{ tid := t, cancel_amount := p.amount, cancel_reason := reason }])

/-- The tail of the cancel route (lines 247-260): the ledger cancellation
and the single commit, built on whatever the refund attempt produced; a
database error rolls back and surfaces a 500. -/
def cancelFinish (today : Nat) (subscription_id : Nat) (reason : String)
    (step : Except DBError (DBState × Nat × String × List CancelCall)) :
    Except CancelRouteError CancelRouteOutcome :=
  match step with
  | .error _ => .error .internalError
  | .ok (db1, refund, st, calls) =>
      match cancel_subscription_crud today db1 subscription_id reason with
      | .error _ => .error .internalError
      | .ok db2 =>
          .ok { response :=
                  { message := "구독이 취소되었습니다"
                    cancelled_at := some today
                    refund_amount := refund
                    payment_cancel_status := some st }
                db := db2, cancelCalls := calls, committed := true }

/-- The `/{subscription_id}/cancel` route (`cancel_subscription`, lines
185-267): owner check; idempotent early return when already CANCELLED; then
the best-effort refund attempt (classifying the gateway error message into
already_cancelled vs failed, lines 236-243), followed by the ledger
cancellation and one commit. A failure of the refund call is caught by the
inner handler and never aborts the ledger mutation. -/
def route_cancel_subscription (today : Nat) (db : DBState) (subscription_id : Nat)
    (reason : String) (current_user : Nat) (gwCancel : CancelGwOutcome) :
    Except CancelRouteError CancelRouteOutcome :=
  match getSubscription db subscription_id with
  | none => .error .notFound
  | some sub =>
      if sub.user_id != current_user then .error .forbidden
      else if sub.status == .CANCELLED then
        .ok { response :=
                { message := "이미 취소된 구독입니다"
                  cancelled_at := sub.end_date
                  refund_amount := 0
                  payment_cancel_status := none }
              db := db, cancelCalls := [], committed := false }
      else
        cancelFinish today subscription_id reason
          (cancelRefundStep db subscription_id reason gwCancel)

/-! ## Invariants and the reachable-state machinery -/

/-- The `unique=True` column constraint on `subscriptions.group_id`
(`models/subscription.py`, line 55): no two rows share a group. -/
def groupUnique (db : DBState) : Prop :=
  db.subscriptions.Pairwise (fun a b => a.group_id ≠ b.group_id)

/-- The `unique=True` column constraint on `payments.transaction_id`
(`models/subscription.py`, line 92): no two payment rows share a gateway
approval id. -/
def payUnique (db : DBState) : Prop :=
  db.payments.Pairwise (fun a b => a.transaction_id ≠ b.transaction_id)

/-- At most one subscription row with status ACTIVE exists per group. -/
def atMostOneActivePerGroup (db : DBState) : Prop :=
  ∀ g, (db.subscriptions.filter
    (fun r => r.group_id == g && r.status == .ACTIVE)).length ≤ 1

/-- The stated mandate-key hygiene property: the gateway customer/billing
key is non-null only on ACTIVE rows. -/
def mandateKeyOnlyWhenActive (db : DBState) : Prop :=
  ∀ r ∈ db.subscriptions, r.status ≠ .ACTIVE → r.pg_customer_key = none

/-- One committed core operation against the persisted ledger. Each
operation carries the values its earlier reads observed (`dupSeen`, `obs`,
the `sub` a scheduler run fetched), so that interleavings in which those
reads are stale — two approve calls for the same group racing — are all
covered: the constraint checks happen against the state the write actually
lands on, as they do in the database. -/
inductive Step where
  | prepareStep
  | approveStep (info : PaymentInfo) (dupSeen obs : Option Subscription)
      (gw : GatewayResult ApproveGwResponse) (commitFails : Bool)
  | cancelStep (subscription_id : Nat) (reason : String) (current_user : Nat)
      (gwCancel : CancelGwOutcome)
  | expireStep (subscription_id : Nat) (reason : String)
  | recurStep (sub : Subscription) (gw : GatewayResult RecurGwResponse)

/-- The database state after one step. `prepareStep` writes nothing to the
ledger (`create_payment_ready` touches only the in-process cache); a failed
route-level cancellation rolls back. -/
def stepDB (today : Nat) (db : DBState) : Step → DBState
  | .prepareStep => db
  | .approveStep info dupSeen obs gw commitFails =>
      (approve_core today [(info.tid, info)] db info.tid dupSeen obs gw commitFails).db
  | .cancelStep sid reason user gwc =>
      match route_cancel_subscription today db sid reason user gwc with
      | .ok o => o.db
      | .error _ => db
  | .expireStep sid reason => expire_subscription today db sid reason
  | .recurStep sub gw => (charge_recurring_payment today db sub gw).db

/-- Run a sequence of dated steps. -/
def run (init : DBState) (steps : List (Nat × Step)) : DBState :=
  steps.foldl (fun db ts => stepDB ts.fst db ts.snd) init

/-! ## Concrete fixtures for witnesses and counterexamples -/

/-- An ACTIVE subscription of group 10 with a live recurring mandate key. -/
def subFix : Subscription :=
  { id := 1, group_id := 10, user_id := 100, status := .ACTIVE, start_date := 5
    end_date := none, next_billing_date := some 35, cancel_reason := none
    amount := 6900, payment_method := some "kakao_pay", pg_customer_key := some "sid1" }

/-- A database holding just `subFix`. -/
def dbFix : DBState := { subscriptions := [subFix], payments := [], nextId := 2 }

/-- A SUCCESS payment of subscription 1 with approval id A1. -/
def payFix : Payment :=
  { id := 7, subscription_id := 1, transaction_id := "A1", pg_tid := some "TIDX"
    amount := 6900, status := .SUCCESS, payment_method := "kakao_pay"
    paid_at := some 5, pg_response_tid := some "TIDX" }

/-- A pending-payment context for a single (non-recurring) payment of group
10, gateway transaction TID1. -/
def infoFix : PaymentInfo :=
  { tid := "TID1", partner_order_id := "PO", partner_user_id := "100"
    user_id := 100, group_id := 10, amount := 6900, is_subscription := false }

/-- The cache as `create_payment_ready` leaves it: the same context under
the correlation id and under the gateway tid. -/
def cacheFix : PaymentCache := [("T", infoFix), ("TID1", infoFix)]

/-- Does the `/payment/ready` response carry a given string in any of its
fields? Used to state that the correlation id is (not) returned. -/
def readyResponseMentions (r : PaymentReadyResponse) (s : String) : Bool :=
  r.tid == s || r.next_redirect_pc_url == s
    || r.next_redirect_mobile_url == s || r.partner_order_id == s

/-- The context `create_payment_ready` builds for the `C5` prepare scenario
(group 10, user 100, gateway tid TID1, timestamp 999). -/
def infoReadyFix : PaymentInfo :=
  { tid := "TID1", partner_order_id := "FNS_10_999", partner_user_id := "100"
    user_id := 100, group_id := 10, amount := 6900, is_subscription := false }

/-! ## Helper lemmas -/

theorem find?_filter_ne (c : PaymentCache) (k k2 : String) (h : k ≠ k2) :
    (c.filter (fun kv => kv.fst != k2)).find? (fun kv => kv.fst == k)
      = c.find? (fun kv => kv.fst == k) := by
  have hk2 : (k2 == k) = false := by
    rw [beq_eq_false_iff_ne]
    exact fun hc => h hc.symm
  induction c with
  | nil => rfl
  | cons a t ih =>
    by_cases ha : a.fst = k2
    · simp [List.filter_cons, List.find?_cons, ha, hk2, ih]
    · by_cases hk : a.fst = k
      · simp [List.filter_cons, List.find?_cons, ha, hk, h]
      · simp [List.filter_cons, List.find?_cons, ha, hk, ih]

theorem cacheGet_cacheRemove_self (c : PaymentCache) (k : String) :
    cacheGet (cacheRemove c k) k = none := by
  unfold cacheGet cacheRemove
  have : (c.filter (fun kv => kv.fst != k)).find? (fun kv => kv.fst == k) = none := by
    rw [List.find?_eq_none]
    intro x hx
    have := List.of_mem_filter hx
    simp only [bne_iff_ne, ne_eq] at this
    simp [this]
  rw [this]
  rfl

theorem cacheGet_cacheRemove_ne (c : PaymentCache) (k k2 : String) (h : k ≠ k2) :
    cacheGet (cacheRemove c k2) k = cacheGet c k := by
  unfold cacheGet cacheRemove
  rw [find?_filter_ne c k k2 h]

theorem cacheGet_cachePut_self (c : PaymentCache) (k : String) (v : PaymentInfo) :
    cacheGet (cachePut c k v) k = some v := by
  unfold cacheGet cachePut cacheRemove
  rw [List.find?_append]
  have h1 : (c.filter (fun kv => kv.fst != k)).find? (fun kv => kv.fst == k) = none := by
    rw [List.find?_eq_none]
    intro x hx
    have := List.of_mem_filter hx
    simp only [bne_iff_ne, ne_eq] at this
    simp [this]
  rw [h1]
  simp [List.find?_cons]

theorem cacheGet_cachePut_ne (c : PaymentCache) (k k2 : String) (v : PaymentInfo)
    (h : k ≠ k2) : cacheGet (cachePut c k2 v) k = cacheGet c k := by
  unfold cacheGet cachePut cacheRemove
  rw [List.find?_append, find?_filter_ne c k k2 h]
  have hk2 : (k2 == k) = false := by
    rw [beq_eq_false_iff_ne]
    exact fun hc => h hc.symm
  have h2 : ([(k2, v)].find? (fun kv => kv.fst == k)) = none := by
    simp [List.find?_cons, hk2]
  rw [h2]
  cases c.find? (fun kv => kv.fst == k) <;> rfl

/-- After the double `cachePut` of `create_payment_ready`, both keys resolve
to the stored context. -/
theorem cacheGet_double_put (c : PaymentCache) (k1 k2 : String) (v : PaymentInfo) :
    cacheGet (cachePut (cachePut c k1 v) k2 v) k1 = some v
      ∧ cacheGet (cachePut (cachePut c k1 v) k2 v) k2 = some v := by
  constructor
  · by_cases h : k1 = k2
    · subst h; exact cacheGet_cachePut_self _ _ _
    · rw [cacheGet_cachePut_ne _ _ _ _ h, cacheGet_cachePut_self]
  · exact cacheGet_cachePut_self _ _ _

/-- `C7`: `upsert_activate_subscription`: a group with a non-active existing
row has that row mutated in place to ACTIVE with a fresh start date and
next-billing date = start + 30 days; a group with no row gets a single fresh
ACTIVE row; and a group that already has a row never receives a second one
(the row count is unchanged). -/
theorem C7_upsert_activates_or_reactivates (today : Nat) (db : DBState)
    (group_id user_id amount : Nat) (key : Option String) :
    (∀ r, get_any_by_group_id db group_id = some r → r.status ≠ .ACTIVE →
      ∃ db', upsert_activate_subscription today db group_id user_id amount key = .ok (db', r.id)
        ∧ db'.subscriptions.length = db.subscriptions.length
        ∧ (∃ x ∈ db'.subscriptions, x.id = r.id ∧ x.group_id = r.group_id
            ∧ x.status = .ACTIVE ∧ x.start_date = today
            ∧ x.next_billing_date = some (today + 30))
        ∧ db'.payments = db.payments)
    ∧ (get_any_by_group_id db group_id = none →
      ∃ x, upsert_activate_subscription today db group_id user_id amount key
          = .ok ({ db with subscriptions := db.subscriptions ++ [x], nextId := db.nextId + 1 },
                 db.nextId)
        ∧ x.group_id = group_id ∧ x.status = .ACTIVE ∧ x.start_date = today
        ∧ x.next_billing_date = some (today + 30) ∧ x.pg_customer_key = key)
    ∧ (∀ r, get_any_by_group_id db group_id = some r →
      ∃ db' i, upsert_activate_subscription today db group_id user_id amount key = .ok (db', i)
        ∧ db'.subscriptions.length = db.subscriptions.length) := by
  refine ⟨?_, ?_, ?_⟩
  · intro r hr _
    refine ⟨{ db with subscriptions :=
        db.subscriptions.map (fun x =>
          if x.id == r.id then upsertUpdateRow today user_id amount key x else x) },
      ?_, ?_, ?_, ?_⟩
    · unfold upsert_activate_subscription
      rw [hr]
      rfl
    · simp
    · refine ⟨upsertUpdateRow today user_id amount key r, ?_, ?_⟩
      · have hmem := List.mem_of_find?_eq_some hr
        have := List.mem_map_of_mem
          (fun x => if x.id == r.id then upsertUpdateRow today user_id amount key x else x) hmem
        simpa using this
      · simp [upsertUpdateRow]
    · rfl
  · intro h
    refine ⟨upsertNewRow today group_id user_id amount key db.nextId, ?_, ?_, ?_, ?_, ?_, ?_⟩
    · unfold upsert_activate_subscription
      rw [h]
      unfold upsert_with_observation insertSubscription
      have hany : (db.subscriptions.any
          (fun x => x.group_id == (upsertNewRow today group_id user_id amount key db.nextId).group_id))
          = false := by
        rw [Bool.eq_false_iff]
        intro hc
        rcases List.any_eq_true.mp hc with ⟨x, hx, hgx⟩
        have := List.find?_eq_none.mp h x hx
        simp only [upsertNewRow] at hgx
        simp [hgx] at this
      rw [hany]
      rfl
    · rfl
    · rfl
    · rfl
    · rfl
    · rfl
  · intro r hr
    refine ⟨{ db with subscriptions :=
        db.subscriptions.map (fun x =>
          if x.id == r.id then upsertUpdateRow today user_id amount key x else x) },
      r.id, ?_, ?_⟩
    · unfold upsert_activate_subscription
      rw [hr]
      rfl
    · simp

/-- Witness for `C7`: reactivating the cancelled row of group 10. -/
theorem C7_witness :
    ∃ db', upsert_activate_subscription 40
        { subscriptions := [{ subFix with status := .CANCELLED }], payments := [], nextId := 2 }
        10 100 6900 none = .ok (db', 1)
      ∧ db'.subscriptions.length = 1 := by
  have h := (C7_upsert_activates_or_reactivates 40
    { subscriptions := [{ subFix with status := .CANCELLED }], payments := [], nextId := 2 }
    10 100 6900 none).1 { subFix with status := .CANCELLED } (by decide) (by decide)
  rcases h with ⟨db', h1, h2, _⟩
  exact ⟨db', h1, h2.trans rfl⟩

/-- `C9` counterexample: expiring the ACTIVE recurring subscription of group
10 (`expire_subscription`, used by the failed-recharge path) leaves the now
EXPIRED row still holding the mandate key `sid1`, so the billing key is not
non-null only while a mandate is active. -/
theorem C9_counterexample_expire_keeps_mandate_key :
    ¬ mandateKeyOnlyWhenActive (expire_subscription 40 dbFix 1 "결제실패: declined") := by
  intro h
  have hmem : ({ subFix with
      status := .EXPIRED
      end_date := some 40
      cancel_reason := some "결제실패: declined" } : Subscription)
      ∈ (expire_subscription 40 dbFix 1 "결제실패: declined").subscriptions := by
    decide
  have := h _ hmem (by decide)
  simp [subFix] at this

/-- `C9` (amended): the subscriber-cancel operation clears the recurring
mandate key, but expiration leaves it untouched on the EXPIRED row, and
reactivation without a new mandate key keeps whatever key the row already
had; so the key can survive on non-ACTIVE rows and on rows reactivated
without recurring. -/
theorem C9_amended_mandate_key_lifecycle :
    (∀ today db sid reason db', cancel_subscription_crud today db sid reason = .ok db' →
      ∀ x ∈ db'.subscriptions, x.id = sid → x.pg_customer_key = none)
    ∧ (∀ today db sid reason r, r ∈ db.subscriptions → r.id = sid →
      ∃ x ∈ (expire_subscription today db sid reason).subscriptions,
        x.id = sid ∧ x.status = .EXPIRED ∧ x.pg_customer_key = r.pg_customer_key)
    ∧ (∀ today db g u amount key r, strTruthy key = false →
      get_any_by_group_id db g = some r →
      ∃ db', upsert_activate_subscription today db g u amount key = .ok (db', r.id)
        ∧ ∃ x ∈ db'.subscriptions, x.id = r.id ∧ x.status = .ACTIVE
            ∧ x.pg_customer_key = r.pg_customer_key) := by
  refine ⟨?_, ?_, ?_⟩
  · intro today db sid reason db' hok x hx hid
    cases hfind : getSubscription db sid with
    | none => simp [cancel_subscription_crud, hfind] at hok
    | some s =>
      simp only [cancel_subscription_crud, hfind] at hok
      cases hok
      rcases List.mem_map.mp hx with ⟨a, _, hfa⟩
      by_cases hida : a.id = sid
      · simp [hida] at hfa
        rw [← hfa]
      · have : (a.id == sid) = false := by simp [hida]
        rw [this] at hfa
        simp at hfa
        rw [← hfa] at hid
        exact absurd hid hida
  · intro today db sid reason r hr hid
    refine ⟨{ r with status := .EXPIRED, end_date := some today, cancel_reason := some reason },
      ?_, rfl.trans hid, rfl, rfl⟩
    have := List.mem_map_of_mem
      (fun x => if x.id == sid then
        { x with
          status := SubscriptionStatus.EXPIRED
          end_date := some today
          cancel_reason := some reason } else x) hr
    simpa [expire_subscription, hid] using this
  · intro today db g u amount key r hkey hr
    refine ⟨{ db with subscriptions :=
        db.subscriptions.map (fun x =>
          if x.id == r.id then upsertUpdateRow today u amount key x else x) }, ?_, ?_⟩
    · unfold upsert_activate_subscription
      rw [hr]
      rfl
    · refine ⟨upsertUpdateRow today u amount key r, ?_, rfl, rfl, ?_⟩
      · have := List.mem_map_of_mem
          (fun x => if x.id == r.id then upsertUpdateRow today u amount key x else x)
          (List.mem_of_find?_eq_some hr)
        simpa using this
      · simp [upsertUpdateRow, hkey]

/-- Witness for `C9_amended_mandate_key_lifecycle`: expiring group 10's row
keeps `sid1` on the EXPIRED row. -/
theorem C9_amended_witness :
    ∃ x ∈ (expire_subscription 40 dbFix 1 "reason").subscriptions,
      x.id = 1 ∧ x.status = .EXPIRED ∧ x.pg_customer_key = some "sid1" := by
  rcases C9_amended_mandate_key_lifecycle.2.1 40 dbFix 1 "reason" subFix (by decide) (by decide)
    with ⟨x, hx, h1, h2, h3⟩
  exact ⟨x, hx, h1, h2, h3.trans rfl⟩

/-- `C5` counterexample: a fully successful prepare for the leader of group
10 stores the context under the correlation id T and the gateway tid TID1,
but the value returned to the caller carries the tid, the redirect URLs and
the partner order id — the freshly generated correlation id T appears in no
field of the response (it only rides along in the callback URLs sent to the
gateway), so the claim that the correlation id is returned to the caller
fails. -/
theorem C5_counterexample_correlation_id_not_returned :
    ready_payment { subscriptions := [], payments := [], nextId := 1 }
        (some { group_id := 10, role := "leader" }) 100 "T" 999 "SU" "CU" "FU" []
        (.ok { tid := some "TID1", next_redirect_pc_url := "pc", next_redirect_mobile_url := "mob" })
      = .ok ({ approval_url := "SU?temp_id=T", cancel_url := "CU?temp_id=T"
               fail_url := "FU?temp_id=T" },
             [("T", infoReadyFix), ("TID1", infoReadyFix)],
             { tid := "TID1", next_redirect_pc_url := "pc", next_redirect_mobile_url := "mob"
               partner_order_id := "FNS_10_999" })
    ∧ readyResponseMentions
        { tid := "TID1", next_redirect_pc_url := "pc", next_redirect_mobile_url := "mob"
          partner_order_id := "FNS_10_999" } "T" = false := by
  constructor
  · decide
  · decide

/-- `C5` (amended): the prepare route rejects a requester without a
membership, rejects a non-leader, rejects a group with an existing ACTIVE
subscription; otherwise, on gateway success, the context is cached under
both the fresh correlation id and the gateway tid, and the caller receives
the redirect URLs, the gateway tid and the partner order id — the
correlation id itself is embedded in the approval/cancel/fail callback URLs
passed to the gateway, not in the response. -/
theorem C5_amended_ready_payment_spec (db : DBState) (membership : Option Membership)
    (user : Nat) (temp : String) (now : Nat) (su cu fu : String)
    (cache : PaymentCache) (gw : GatewayResult ReadyGwResponse) :
    (membership = none →
      ready_payment db membership user temp now su cu fu cache gw = .error .notInGroup)
    ∧ (∀ m, membership = some m → m.role ≠ ROLE_LEADER →
      ready_payment db membership user temp now su cu fu cache gw = .error .notLeader)
    ∧ (∀ m s, membership = some m → m.role = ROLE_LEADER →
      get_by_group_id_simple db m.group_id = some s →
      ready_payment db membership user temp now su cu fu cache gw = .error .alreadyActive)
    ∧ (∀ m r tid, membership = some m → m.role = ROLE_LEADER →
      get_by_group_id_simple db m.group_id = none →
      gw = .ok r → r.tid = some tid →
      ∃ c2, ready_payment db membership user temp now su cu fu cache gw
          = .ok ({ approval_url := su ++ "?temp_id=" ++ temp
                   cancel_url := cu ++ "?temp_id=" ++ temp
                   fail_url := fu ++ "?temp_id=" ++ temp },
                 c2,
                 { tid := tid
                   next_redirect_pc_url := r.next_redirect_pc_url
                   next_redirect_mobile_url := r.next_redirect_mobile_url
                   partner_order_id := partnerOrderId m.group_id now })
        ∧ cacheGet c2 temp = some
            { tid := tid, partner_order_id := partnerOrderId m.group_id now
              partner_user_id := toString user, user_id := user, group_id := m.group_id
              amount := 6900, is_subscription := false }
        ∧ cacheGet c2 tid = some
            { tid := tid, partner_order_id := partnerOrderId m.group_id now
              partner_user_id := toString user, user_id := user, group_id := m.group_id
              amount := 6900, is_subscription := false }) := by
  refine ⟨?_, ?_, ?_, ?_⟩
  · intro h
    rw [h]
    rfl
  · intro m hm hrole
    rw [hm]
    have hr : (m.role != ROLE_LEADER) = true := by simpa using hrole
    simp [ready_payment, hr]
  · intro m s hm hrole hact
    rw [hm]
    have hr : (m.role != ROLE_LEADER) = false := by simpa using hrole
    simp [ready_payment, hr, hact]
  · intro m r tid hm hrole hact hgw htid
    subst hm
    subst hgw
    have hr : (m.role != ROLE_LEADER) = false := by simpa using hrole
    refine ⟨cachePut (cachePut cache temp
        { tid := tid, partner_order_id := partnerOrderId m.group_id now
          partner_user_id := toString user, user_id := user, group_id := m.group_id
          amount := 6900, is_subscription := false }) tid
        { tid := tid, partner_order_id := partnerOrderId m.group_id now
          partner_user_id := toString user, user_id := user, group_id := m.group_id
          amount := 6900, is_subscription := false }, ?_, ?_, ?_⟩
    · simp [ready_payment, hr, hact, create_payment_ready, htid]
    · exact (cacheGet_double_put cache temp tid _).1
    · exact (cacheGet_double_put cache temp tid _).2

/-- Witness for `C5_amended_ready_payment_spec`: the concrete successful
prepare of group 10's leader. -/
theorem C5_amended_witness :
    ∃ c2, ready_payment { subscriptions := [], payments := [], nextId := 1 }
        (some { group_id := 10, role := "leader" }) 100 "T" 999 "SU" "CU" "FU" []
        (.ok { tid := some "TID1", next_redirect_pc_url := "pc", next_redirect_mobile_url := "mob" })
        = .ok ({ approval_url := "SU" ++ "?temp_id=" ++ "T"
                 cancel_url := "CU" ++ "?temp_id=" ++ "T"
                 fail_url := "FU" ++ "?temp_id=" ++ "T" },
               c2,
               { tid := "TID1", next_redirect_pc_url := "pc", next_redirect_mobile_url := "mob"
                 partner_order_id := partnerOrderId 10 999 })
      ∧ cacheGet c2 "T" = some
          { tid := "TID1", partner_order_id := partnerOrderId 10 999
            partner_user_id := toString 100, user_id := 100, group_id := 10
            amount := 6900, is_subscription := false }
      ∧ cacheGet c2 "TID1" = some
          { tid := "TID1", partner_order_id := partnerOrderId 10 999
            partner_user_id := toString 100, user_id := 100, group_id := 10
            amount := 6900, is_subscription := false } := by
  exact (C5_amended_ready_payment_spec { subscriptions := [], payments := [], nextId := 1 }
    (some { group_id := 10, role := "leader" }) 100 "T" 999 "SU" "CU" "FU" []
    (.ok { tid := some "TID1", next_redirect_pc_url := "pc", next_redirect_mobile_url := "mob" })).2.2.2
    { group_id := 10, role := "leader" }
    { tid := some "TID1", next_redirect_pc_url := "pc", next_redirect_mobile_url := "mob" }
    "TID1" rfl (by decide) (by decide) rfl rfl

/-- `C3`: if the local transaction fails after the gateway reported approval
success, `approve_payment` attempts a compensating gateway cancel with the
same transaction id and the same amount that were just approved, and only
then surfaces the error. -/
theorem C3_compensating_cancel_on_db_failure (today : Nat) (cache : PaymentCache)
    (db : DBState) (tid : String) (info : PaymentInfo) (resp : ApproveGwResponse)
    (hcache : cacheGet cache tid = some info)
    (hdup : duplicateCheck db info = false) :
    (approve_payment today cache db tid (.ok resp) true).cancelCalls
        = [{ tid := tid, cancel_amount := info.amount, cancel_reason := "DB 저장 실패 원복" }]
      ∧ (approve_payment today cache db tid (.ok resp) true).result
        = .error "결제 승인 후 내부 저장 실패로 결제를 원복했습니다" := by
  unfold duplicateCheck at hdup
  rcases hu : upsert_with_observation today db (get_any_by_group_id db info.group_id)
      info.group_id info.user_id info.amount
      (if info.is_subscription then resp.sid else none) with e | ⟨db1, subId⟩
  · simp [approve_payment, approve_core, hcache, hdup, hu]
  · rcases hc : create_payment today db1 subId resp.aid info.amount
        (if info.is_subscription then "kakao_pay_subscription" else "kakao_pay")
        .SUCCESS (some tid) resp.tid with e | ⟨db2, payId⟩
    · simp [approve_payment, approve_core, hcache, hdup, hu, hc]
    · simp [approve_payment, approve_core, hcache, hdup, hu, hc]

/-- Witness for `C3_compensating_cancel_on_db_failure`: concrete failed
commit after a successful approval of TID1. -/
theorem C3_witness :
    (approve_payment 40 cacheFix { subscriptions := [], payments := [], nextId := 1 }
        "TID1" (.ok { aid := some "A1", sid := none, tid := some "TID1" }) true).cancelCalls
      = [{ tid := "TID1", cancel_amount := 6900, cancel_reason := "DB 저장 실패 원복" }] :=
  (C3_compensating_cancel_on_db_failure 40 cacheFix
    { subscriptions := [], payments := [], nextId := 1 } "TID1" infoFix
    { aid := some "A1", sid := none, tid := some "TID1" }
    (by decide) (by decide)).1

/-- `C4` counterexample: with the context cached under correlation id T and
gateway tid TID1, a transient (non-HTTP-status) gateway error during the
approve callback leaves the database untouched — no outcome is durably
recorded — yet both cache entries are gone afterwards, so a client retry can
no longer find the context. -/
theorem C4_counterexample_cache_purged_on_transient_error :
    (cacheGet cacheFix "T").isSome = true
    ∧ (cacheGet cacheFix "TID1").isSome = true
    ∧ (route_approve 40 cacheFix dbFix "T" (.otherError "ReadTimeout") false).db = dbFix
    ∧ (route_approve 40 cacheFix dbFix "T" (.otherError "ReadTimeout") false).redirect
        = .fail "ReadTimeout"
    ∧ cacheGet (route_approve 40 cacheFix dbFix "T" (.otherError "ReadTimeout") false).cache "T"
        = none
    ∧ cacheGet (route_approve 40 cacheFix dbFix "T" (.otherError "ReadTimeout") false).cache "TID1"
        = none := by
  decide

/-- `C4` (amended): cache entries are not retained until an outcome is
durably recorded. On a transient (non-HTTP-status) gateway error during
approve, the service deletes the tid entry and the route deletes the
correlation-id entry, so no retry context survives; on a gateway HTTP-status
error only the tid entry survives in the service cache while the
correlation-id entry is still removed by the route. In both cases the
database is unchanged. -/
theorem C4_amended_cache_removal_on_approve_failure (today : Nat)
    (cache : PaymentCache) (db : DBState) (temp_id : String) (info : PaymentInfo)
    (commitFails : Bool)
    (hcache : cacheGet cache temp_id = some info)
    (hcache2 : cacheGet cache info.tid = some info)
    (htid : info.tid.isEmpty = false)
    (hdup : duplicateCheck db info = false)
    (hne : temp_id ≠ info.tid) :
    (∀ msg,
      (route_approve today cache db temp_id (.otherError msg) commitFails).db = db
      ∧ cacheGet (route_approve today cache db temp_id (.otherError msg) commitFails).cache
          temp_id = none
      ∧ cacheGet (route_approve today cache db temp_id (.otherError msg) commitFails).cache
          info.tid = none)
    ∧ (∀ msg,
      (route_approve today cache db temp_id (.httpError msg) commitFails).db = db
      ∧ cacheGet (route_approve today cache db temp_id (.httpError msg) commitFails).cache
          temp_id = none
      ∧ cacheGet (route_approve today cache db temp_id (.httpError msg) commitFails).cache
          info.tid = cacheGet cache info.tid) := by
  unfold duplicateCheck at hdup
  constructor
  · intro msg
    have hred : route_approve today cache db temp_id (.otherError msg) commitFails
        = { redirect := .fail msg, db := db
            cache := cacheRemove (cacheRemove cache info.tid) temp_id, cancelCalls := [] } := by
      simp [route_approve, approve_payment, approve_core, hcache, hcache2, htid, hdup]
    rw [hred]
    refine ⟨rfl, ?_, ?_⟩
    · exact cacheGet_cacheRemove_self _ _
    · rw [cacheGet_cacheRemove_ne _ _ _ (fun hc => hne hc.symm)]
      exact cacheGet_cacheRemove_self _ _
  · intro msg
    have hred : route_approve today cache db temp_id (.httpError msg) commitFails
        = { redirect := .fail ("결제 승인 실패: " ++ msg), db := db
            cache := cacheRemove cache temp_id, cancelCalls := [] } := by
      simp [route_approve, approve_payment, approve_core, hcache, hcache2, htid, hdup]
    rw [hred]
    refine ⟨rfl, ?_, ?_⟩
    · exact cacheGet_cacheRemove_self _ _
    · exact cacheGet_cacheRemove_ne _ _ _ (fun hc => hne hc.symm)

/-- Witness for `C4_amended_cache_removal_on_approve_failure`: the concrete
transient-error scenario on cache entries T and TID1. -/
theorem C4_amended_witness :
    (route_approve 40 cacheFix dbFix "T" (.otherError "ReadTimeout") false).db = dbFix
    ∧ cacheGet (route_approve 40 cacheFix dbFix "T" (.otherError "ReadTimeout") false).cache
        "T" = none
    ∧ cacheGet (route_approve 40 cacheFix dbFix "T" (.otherError "ReadTimeout") false).cache
        "TID1" = none :=
  (C4_amended_cache_removal_on_approve_failure 40 cacheFix dbFix "T" infoFix false
    (by decide) (by decide) (by decide) (by decide) (by decide)).1 "ReadTimeout"

/-- `C2` counterexample: group 10 already has an ACTIVE subscription, yet a
(non-recurring) approve for that group succeeds end to end: after gateway
approval success no re-check is made, no DuplicateSubscription error and no
compensating cancel occur — instead the existing row is re-activated by the
upsert and a SUCCESS payment is recorded. -/
theorem C2_counterexample_no_recheck_after_approval :
    (get_by_group_id_simple dbFix 10).isSome = true
    ∧ (approve_payment 40 cacheFix dbFix "TID1"
        (.ok { aid := some "A1", sid := none, tid := some "TID1" }) false).result
      = .ok { aid := some "A1", sid := none, tid := "TID1",
              subscription_id := 1, payment_id := 2, user_id := 100 }
    ∧ (approve_payment 40 cacheFix dbFix "TID1"
        (.ok { aid := some "A1", sid := none, tid := some "TID1" }) false).cancelCalls = []
    ∧ (approve_payment 40 cacheFix dbFix "TID1"
        (.ok { aid := some "A1", sid := none, tid := some "TID1" }) false).db.payments.length
      = 1 := by
  decide

/-- `C2` (amended): the duplicate check runs before the gateway approval
call, not after, and only for recurring-setup payments whose group already
has an ACTIVE subscription carrying a truthy mandate key; in that case the
flow fails before any gateway call — nothing was approved, so no
compensating cancel is issued — and the tid cache entry is purged. After
gateway success there is no re-check: the flow activates via the upsert and
records the SUCCESS payment in the same local transaction, then purges the
tid cache entry. -/
theorem C2_amended_duplicate_check_before_gateway (today : Nat)
    (cache : PaymentCache) (db : DBState) (tid : String) (info : PaymentInfo)
    (gw : GatewayResult ApproveGwResponse) (commitFails : Bool)
    (hcache : cacheGet cache tid = some info) :
    (duplicateCheck db info = true →
      (approve_payment today cache db tid gw commitFails).result
          = .error "이미 활성 정기구독이 존재합니다."
      ∧ (approve_payment today cache db tid gw commitFails).approveCalled = false
      ∧ (approve_payment today cache db tid gw commitFails).db = db
      ∧ (approve_payment today cache db tid gw commitFails).cancelCalls = []
      ∧ cacheGet (approve_payment today cache db tid gw commitFails).cache tid = none)
    ∧ (∀ resp db1 subId db2 payId, duplicateCheck db info = false →
      gw = .ok resp → commitFails = false →
      upsert_activate_subscription today db info.group_id info.user_id info.amount
          (if info.is_subscription then resp.sid else none) = .ok (db1, subId) →
      create_payment today db1 subId resp.aid info.amount
          (if info.is_subscription then "kakao_pay_subscription" else "kakao_pay")
          .SUCCESS (some tid) resp.tid = .ok (db2, payId) →
      (approve_payment today cache db tid gw commitFails).result
          = .ok { aid := resp.aid, sid := resp.sid, tid := tid,
                  subscription_id := subId, payment_id := payId, user_id := info.user_id }
      ∧ (approve_payment today cache db tid gw commitFails).db = db2
      ∧ cacheGet (approve_payment today cache db tid gw commitFails).cache tid = none) := by
  constructor
  · intro hdup
    unfold duplicateCheck at hdup
    rw [Bool.and_eq_true] at hdup
    have hsub : info.is_subscription = true := hdup.1
    have hmatch := hdup.2
    have hred : approve_payment today cache db tid gw commitFails
        = { result := .error "이미 활성 정기구독이 존재합니다.", db := db,
            cache := cacheRemove cache tid, cancelCalls := [], approveCalled := false } := by
      simp [approve_payment, approve_core, hcache, hsub, hmatch]
    rw [hred]
    exact ⟨rfl, rfl, rfl, rfl, cacheGet_cacheRemove_self _ _⟩
  · intro resp db1 subId db2 payId hdup hgw hcf hu hc
    subst hgw
    subst hcf
    unfold duplicateCheck at hdup
    unfold upsert_activate_subscription at hu
    have hred : approve_payment today cache db tid (.ok resp) false
        = { result := .ok { aid := resp.aid, sid := resp.sid, tid := tid,
                            subscription_id := subId, payment_id := payId,
                            user_id := info.user_id },
            db := db2, cache := cacheRemove cache tid,
            cancelCalls := [], approveCalled := true } := by
      simp [approve_payment, approve_core, hcache, hdup, hu, hc]
    rw [hred]
    exact ⟨rfl, rfl, cacheGet_cacheRemove_self _ _⟩

/-- Witness for `C2_amended_duplicate_check_before_gateway`: the concrete
happy path on an empty ledger — the approve records subscription 1 and
payment 2. -/
theorem C2_amended_witness :
    (approve_payment 40 cacheFix { subscriptions := [], payments := [], nextId := 1 }
        "TID1" (.ok { aid := some "A1", sid := none, tid := some "TID1" }) false).result
      = .ok { aid := some "A1", sid := none, tid := "TID1",
              subscription_id := 1, payment_id := 2, user_id := 100 } :=
  ((C2_amended_duplicate_check_before_gateway 40 cacheFix
      { subscriptions := [], payments := [], nextId := 1 } "TID1" infoFix
      (.ok { aid := some "A1", sid := none, tid := some "TID1" }) false (by decide)).2
    { aid := some "A1", sid := none, tid := some "TID1" }
    { subscriptions := [upsertNewRow 40 10 100 6900 none 1], payments := [], nextId := 2 }
    1
    { subscriptions := [upsertNewRow 40 10 100 6900 none 1],
      payments := [{ id := 2, subscription_id := 1, transaction_id := "A1",
                     pg_tid := some "TID1", amount := 6900, status := .SUCCESS,
                     payment_method := "kakao_pay", paid_at := some 40,
                     pg_response_tid := some "TID1" }],
      nextId := 3 }
    2 (by decide) rfl rfl (by decide) (by decide)).1

theorem cancel_crud_ok (today : Nat) (db : DBState) (sid : Nat) (reason : String)
    (sub : Subscription) (h : getSubscription db sid = some sub) :
    ∃ db2, cancel_subscription_crud today db sid reason = .ok db2
      ∧ db2.payments = db.payments
      ∧ (∃ x ∈ db2.subscriptions, x.id = sid ∧ x.status = .CANCELLED
          ∧ x.end_date = some today ∧ x.cancel_reason = some reason
          ∧ x.pg_customer_key = none) := by
  have h2 := h
  unfold getSubscription at h2
  have hid : (sub.id == sid) = true := by
    have := List.find?_some h2
    simpa using this
  have hmem : sub ∈ db.subscriptions := List.mem_of_find?_eq_some h2
  refine ⟨{ db with subscriptions :=
      db.subscriptions.map (fun r =>
        if r.id == sid then
          { r with
            status := .CANCELLED
            end_date := some today
            cancel_reason := some reason
            pg_customer_key := none }
        else r) }, ?_, rfl, ?_⟩
  · unfold cancel_subscription_crud
    rw [h]
  · refine ⟨{ sub with
      status := .CANCELLED
      end_date := some today
      cancel_reason := some reason
      pg_customer_key := none }, ?_, by simpa using hid, rfl, rfl, rfl, rfl⟩
    have := List.mem_map_of_mem (fun r =>
      if r.id == sid then
        { r with
          status := SubscriptionStatus.CANCELLED
          end_date := some today
          cancel_reason := some reason
          pg_customer_key := none }
      else r) hmem
    simpa [hid] using this

theorem mark_refunded_ok (db : DBState) (p : Payment) (h : p ∈ db.payments) :
    ∃ d, mark_refunded db p.id = .ok d ∧ d.subscriptions = db.subscriptions := by
  unfold mark_refunded
  cases hf : db.payments.find? (fun x => x.id == p.id) with
  | none =>
    have := List.find?_eq_none.mp hf p h
    simp at this
  | some q => exact ⟨_, rfl, rfl⟩

theorem get_recent_payment_mem (db : DBState) (sid : Nat) (p : Payment)
    (h : get_recent_payment db sid = some p) : p ∈ db.payments := by
  unfold get_recent_payment at h
  have h2 : p ∈ db.payments.filter (fun q => q.subscription_id == sid) := by
    rcases List.mem_getLast?_eq_getLast (l := db.payments.filter
        (fun q => q.subscription_id == sid)) (x := p)
        (by simp [Option.mem_def, h]) with ⟨hne, rfl⟩
    exact List.getLast_mem hne
  exact List.mem_of_mem_filter h2

/-- Any refund attempt of the cancel route succeeds as a step and does not
touch the subscriptions table. -/
theorem cancelRefundStep_ok (db : DBState) (sid : Nat) (reason : String)
    (gwCancel : CancelGwOutcome) :
    ∃ db1 refund st calls, cancelRefundStep db sid reason gwCancel
        = .ok (db1, refund, st, calls)
      ∧ db1.subscriptions = db.subscriptions := by
  unfold cancelRefundStep
  split
  · exact ⟨db, 0, "no_payment", [], rfl, rfl⟩
  · rename_i p hrp
    split
    · exact ⟨db, 0, "failed", [], rfl, rfl⟩
    · rename_i t htfc
      split
      · rename_i u hsvc
        rcases mark_refunded_ok db p (get_recent_payment_mem db sid p hrp) with ⟨d, hd, hds⟩
        refine ⟨d, p.amount, "success",
          [{ tid := t, cancel_amount := p.amount, cancel_reason := reason }], ?_, hds⟩
        rw [hd]
      · rename_i msg hsvc
        by_cases hclass : (containsSubstr msg "invalid tid" || containsSubstr msg "-721"
            || containsSubstr msg "-780") = true
        · refine ⟨db, p.amount, "already_cancelled",
            [{ tid := t, cancel_amount := p.amount, cancel_reason := reason }], ?_, rfl⟩
          simp [hclass]
        · refine ⟨db, 0, "failed",
            [{ tid := t, cancel_amount := p.amount, cancel_reason := reason }], ?_, rfl⟩
          simp [Bool.eq_false_iff.mpr hclass]

/-- `C6`: once the owner check passes and the subscription is not already
cancelled, the cancel route always commits the transition to CANCELLED with
end date = today, whatever the gateway refund outcome was — the ledger
mutation is never rolled back because the refund attempt failed; and when
the gateway cancel fails with a generic (non-already-cancelled) error the
response reports payment_cancel_status = "failed" and refund_amount = 0
while the cancel call was issued against the payment's stored tid. -/
theorem C6_cancel_decoupled_from_refund (today : Nat) (db : DBState) (sid : Nat)
    (reason : String) (user : Nat) (gwCancel : CancelGwOutcome) (sub : Subscription)
    (hsub : getSubscription db sid = some sub)
    (huser : sub.user_id = user)
    (hst : sub.status ≠ .CANCELLED) :
    (∃ o, route_cancel_subscription today db sid reason user gwCancel = .ok o
      ∧ o.committed = true
      ∧ ∃ x ∈ o.db.subscriptions, x.id = sid ∧ x.status = .CANCELLED
          ∧ x.end_date = some today)
    ∧ (∀ code msg p t, gwCancel = .httpError code msg → code ≠ -780 →
      containsSubstr ("결제 취소 실패: " ++ msg) "invalid tid" = false →
      containsSubstr ("결제 취소 실패: " ++ msg) "-721" = false →
      containsSubstr ("결제 취소 실패: " ++ msg) "-780" = false →
      get_recent_payment db sid = some p → p.pg_tid = some t → t.isEmpty = false →
      ∃ o, route_cancel_subscription today db sid reason user gwCancel = .ok o
        ∧ o.response.payment_cancel_status = some "failed"
        ∧ o.response.refund_amount = 0
        ∧ o.committed = true
        ∧ o.cancelCalls = [{ tid := t, cancel_amount := p.amount, cancel_reason := reason }]
        ∧ ∃ x ∈ o.db.subscriptions, x.id = sid ∧ x.status = .CANCELLED
            ∧ x.end_date = some today) := by
  have huser2 : (sub.user_id != user) = false := by simp [huser]
  have hst2 : (sub.status == SubscriptionStatus.CANCELLED) = false := by
    simp only [beq_eq_false_iff_ne, ne_eq]
    exact hst
  constructor
  · rcases cancelRefundStep_ok db sid reason gwCancel with ⟨db1, refund, st, calls, hstep, hsubs⟩
    have hsub1 : getSubscription db1 sid = some sub := by
      unfold getSubscription
      rw [hsubs]
      exact hsub
    rcases cancel_crud_ok today db1 sid reason sub hsub1 with ⟨db2, hcc, _, x, hx, hfacts⟩
    refine ⟨{ response := { message := "구독이 취소되었습니다", cancelled_at := some today,
                            refund_amount := refund, payment_cancel_status := some st },
              db := db2, cancelCalls := calls, committed := true }, ?_, rfl, ?_⟩
    · unfold route_cancel_subscription
      rw [hsub]
      simp only [huser2, Bool.false_eq_true, if_false, hst2]
      unfold cancelFinish
      simp only [hstep, hcc]
    · exact ⟨x, hx, hfacts.1, hfacts.2.1, hfacts.2.2.1⟩
  · intro code msg p t hgw hcode hc1 hc2 hc3 hrp htid htne
    subst hgw
    have hsvc : cancel_payment_svc (.httpError code msg)
        = .error ("결제 취소 실패: " ++ msg) := by
      have hcb : (code == -780) = false := by
        simp only [beq_eq_false_iff_ne, ne_eq]
        exact hcode
      simp [cancel_payment_svc, hcb]
    have hstep : cancelRefundStep db sid reason (.httpError code msg)
        = .ok (db, 0, "failed",
            [{ tid := t, cancel_amount := p.amount, cancel_reason := reason }]) := by
      unfold cancelRefundStep
      rw [hrp]
      have htr : strTruthy (some t) = true := by
        unfold strTruthy
        simp [htne]
      simp only [htid, htr, if_true, hsvc]
      simp [hc1, hc2, hc3]
    rcases cancel_crud_ok today db sid reason sub hsub with ⟨db2, hcc, _, x, hx, hfacts⟩
    refine ⟨{ response := { message := "구독이 취소되었습니다", cancelled_at := some today,
                            refund_amount := 0, payment_cancel_status := some "failed" },
              db := db2,
              cancelCalls := [{ tid := t, cancel_amount := p.amount, cancel_reason := reason }],
              committed := true }, ?_, rfl, rfl, rfl, rfl, ?_⟩
    · unfold route_cancel_subscription
      rw [hsub]
      simp only [huser2, Bool.false_eq_true, if_false, hst2]
      unfold cancelFinish
      simp only [hstep, hcc]
    · exact ⟨x, hx, hfacts.1, hfacts.2.1, hfacts.2.2.1⟩

/-- Witness for `C6_cancel_decoupled_from_refund`: a concrete generic
gateway failure still ends with the subscription CANCELLED, status
"failed" and refund 0. -/
theorem C6_witness :
    ∃ o, route_cancel_subscription 40
        { subscriptions := [subFix], payments := [payFix], nextId := 9 }
        1 "user req" 100 (.httpError (-100) "boom") = .ok o
      ∧ o.response.payment_cancel_status = some "failed"
      ∧ o.response.refund_amount = 0
      ∧ o.committed = true
      ∧ o.cancelCalls = [{ tid := "TIDX", cancel_amount := 6900, cancel_reason := "user req" }]
      ∧ ∃ x ∈ o.db.subscriptions, x.id = 1 ∧ x.status = .CANCELLED
          ∧ x.end_date = some 40 :=
  (C6_cancel_decoupled_from_refund 40
    { subscriptions := [subFix], payments := [payFix], nextId := 9 }
    1 "user req" 100 (.httpError (-100) "boom") subFix
    (by decide) (by decide) (by decide)).2
    (-100) "boom" payFix "TIDX" rfl (by decide)
    (by decide) (by decide) (by decide) (by decide) (by decide) (by decide)

/-- `C8`: for a due subscription processed by the recurring charge: on
gateway success a SUCCESS payment with the gateway approval id is appended
and the subscription's next billing date advances to today + 30; on a
gateway HTTP failure the subscription row is set to EXPIRED with end date =
today and a cancel reason carrying the failure detail, and no payment row
(in particular no SUCCESS one) is created for the failed attempt. -/
theorem C8_recurring_charge_outcomes (today : Nat) (db : DBState)
    (sub : Subscription) (gw : GatewayResult RecurGwResponse)
    (hmem : sub ∈ db.subscriptions) :
    (∀ resp aid, gw = .ok resp → resp.aid = some aid →
      (∀ p ∈ db.payments, p.transaction_id ≠ aid) →
      ∃ db2, charge_recurring_payment today db sub gw = { result := .ok (), db := db2 }
        ∧ (∃ pay, db2.payments = db.payments ++ [pay] ∧ pay.status = .SUCCESS
            ∧ pay.transaction_id = aid ∧ pay.subscription_id = sub.id
            ∧ pay.amount = sub.amount)
        ∧ (∃ x ∈ db2.subscriptions, x.id = sub.id
            ∧ x.next_billing_date = some (today + 30)))
    ∧ (∀ msg, gw = .httpError msg →
      (charge_recurring_payment today db sub gw).result = .error ("정기결제 실패: " ++ msg)
      ∧ (charge_recurring_payment today db sub gw).db.payments = db.payments
      ∧ (∃ x ∈ (charge_recurring_payment today db sub gw).db.subscriptions,
          x.id = sub.id ∧ x.status = .EXPIRED ∧ x.end_date = some today
          ∧ x.cancel_reason = some ("결제실패: " ++ msg))) := by
  constructor
  · intro resp aid hgw haid hfresh
    subst hgw
    have hany : (db.payments.any (fun x => x.transaction_id == aid)) = false := by
      rw [Bool.eq_false_iff]
      intro hc
      rcases List.any_eq_true.mp hc with ⟨x, hx, hgx⟩
      exact hfresh x hx (by simpa using hgx)
    have hc : create_payment today db sub.id resp.aid sub.amount
        "kakao_pay_subscription" .SUCCESS resp.tid resp.tid
        = .ok ({ db with
            payments := db.payments ++
              [{ id := db.nextId, subscription_id := sub.id, transaction_id := aid,
                 pg_tid := resp.tid, amount := sub.amount, status := .SUCCESS,
                 payment_method := "kakao_pay_subscription", paid_at := some today,
                 pg_response_tid := resp.tid }],
            nextId := db.nextId + 1 }, db.nextId) := by
      unfold create_payment
      rw [haid]
      simp [insertPayment, hany]
    refine ⟨{ subscriptions := db.subscriptions.map
                  (fun r => if r.id == sub.id then
                      { r with next_billing_date := some (today + 30) }
                    else r),
              payments := db.payments ++
                  [{ id := db.nextId, subscription_id := sub.id, transaction_id := aid,
                     pg_tid := resp.tid, amount := sub.amount, status := .SUCCESS,
                     payment_method := "kakao_pay_subscription", paid_at := some today,
                     pg_response_tid := resp.tid }],
              nextId := db.nextId + 1 }, ?_, ?_, ?_⟩
    · simp [charge_recurring_payment, hc, update_next_billing_date]
    · exact ⟨_, rfl, rfl, rfl, rfl, rfl⟩
    · refine ⟨{ sub with next_billing_date := some (today + 30) }, ?_, rfl, rfl⟩
      have := List.mem_map_of_mem
        (fun r => if r.id == sub.id then { r with next_billing_date := some (today + 30) }
                  else r) hmem
      simpa using this
  · intro msg hgw
    subst hgw
    refine ⟨rfl, rfl, ?_⟩
    refine ⟨{ sub with
      status := .EXPIRED
      end_date := some today
      cancel_reason := some ("결제실패: " ++ msg) }, ?_, rfl, rfl, rfl, rfl⟩
    have := List.mem_map_of_mem
      (fun r => if r.id == sub.id then
        { r with
          status := SubscriptionStatus.EXPIRED
          end_date := some today
          cancel_reason := some ("결제실패: " ++ msg) } else r) hmem
    simpa [charge_recurring_payment, expire_subscription] using this

/-- Witness for `C8_recurring_charge_outcomes`: the concrete failed recharge
of subscription 1 expires it with the failure reason. -/
theorem C8_witness :
    (charge_recurring_payment 40 dbFix subFix (.httpError "no money")).result
        = .error ("정기결제 실패: " ++ "no money")
    ∧ (charge_recurring_payment 40 dbFix subFix (.httpError "no money")).db.payments
        = dbFix.payments
    ∧ (∃ x ∈ (charge_recurring_payment 40 dbFix subFix (.httpError "no money")).db.subscriptions,
        x.id = subFix.id ∧ x.status = .EXPIRED ∧ x.end_date = some 40
        ∧ x.cancel_reason = some ("결제실패: " ++ "no money")) :=
  (C8_recurring_charge_outcomes 40 dbFix subFix (.httpError "no money")
    (by decide)).2 "no money" rfl

theorem pairwise_group_map (l : List Subscription) (f : Subscription → Subscription)
    (hf : ∀ r, (f r).group_id = r.group_id)
    (h : l.Pairwise (fun a b => a.group_id ≠ b.group_id)) :
    (l.map f).Pairwise (fun a b => a.group_id ≠ b.group_id) := by
  rw [List.pairwise_map]
  refine h.imp ?_
  intro a b hab
  rw [hf, hf]
  exact hab

theorem pairwise_tid_map (l : List Payment) (f : Payment → Payment)
    (hf : ∀ p, (f p).transaction_id = p.transaction_id)
    (h : l.Pairwise (fun a b => a.transaction_id ≠ b.transaction_id)) :
    (l.map f).Pairwise (fun a b => a.transaction_id ≠ b.transaction_id) := by
  rw [List.pairwise_map]
  refine h.imp ?_
  intro a b hab
  rw [hf, hf]
  exact hab

theorem groupUnique_insertSubscription (db db' : DBState) (r : Subscription)
    (h : insertSubscription db r = .ok db') (hg : groupUnique db) : groupUnique db' := by
  unfold insertSubscription at h
  split at h
  · cases h
  · cases h
    rename_i hcond
    unfold groupUnique at *
    refine List.pairwise_append.mpr ⟨hg, by simp, ?_⟩
    intro a ha b hb
    simp only [List.mem_singleton] at hb
    subst hb
    intro heq
    exact hcond (List.any_eq_true.mpr ⟨a, ha, by simp [heq]⟩)

theorem payUnique_insertPayment (db db' : DBState) (p : Payment)
    (h : insertPayment db p = .ok db') (hg : payUnique db) : payUnique db' := by
  unfold insertPayment at h
  split at h
  · cases h
  · cases h
    rename_i hcond
    unfold payUnique at *
    refine List.pairwise_append.mpr ⟨hg, by simp, ?_⟩
    intro a ha b hb
    simp only [List.mem_singleton] at hb
    subst hb
    intro heq
    exact hcond (List.any_eq_true.mpr ⟨a, ha, by simp [heq]⟩)

theorem insertSubscription_payments (db db' : DBState) (r : Subscription)
    (h : insertSubscription db r = .ok db') : db'.payments = db.payments := by
  unfold insertSubscription at h
  split at h
  · cases h
  · cases h
    rfl

theorem insertPayment_subscriptions (db db' : DBState) (p : Payment)
    (h : insertPayment db p = .ok db') : db'.subscriptions = db.subscriptions := by
  unfold insertPayment at h
  split at h
  · cases h
  · cases h
    rfl

theorem upsert_obs_groupUnique (today : Nat) (db : DBState) (obs : Option Subscription)
    (g u a : Nat) (k : Option String) (d1 : DBState) (i : Nat)
    (h : upsert_with_observation today db obs g u a k = .ok (d1, i))
    (hg : groupUnique db) : groupUnique d1 := by
  unfold upsert_with_observation at h
  match obs with
  | some e =>
    simp only at h
    cases h
    exact pairwise_group_map _ _
      (fun r => by by_cases hc : (r.id == e.id) = true <;> simp [hc, upsertUpdateRow]) hg
  | none =>
    simp only at h
    cases hins : insertSubscription db (upsertNewRow today g u a k db.nextId) with
    | error e =>
      rw [hins] at h
      cases h
    | ok db2 =>
      rw [hins] at h
      simp only at h
      cases h
      exact groupUnique_insertSubscription db _ _ hins hg

theorem upsert_obs_payments (today : Nat) (db : DBState) (obs : Option Subscription)
    (g u a : Nat) (k : Option String) (d1 : DBState) (i : Nat)
    (h : upsert_with_observation today db obs g u a k = .ok (d1, i)) :
    d1.payments = db.payments := by
  unfold upsert_with_observation at h
  match obs with
  | some e =>
    simp only at h
    cases h
    rfl
  | none =>
    simp only at h
    cases hins : insertSubscription db (upsertNewRow today g u a k db.nextId) with
    | error e =>
      rw [hins] at h
      cases h
    | ok db2 =>
      rw [hins] at h
      simp only at h
      cases h
      exact insertSubscription_payments db _ _ hins

theorem create_payment_subscriptions (today : Nat) (db : DBState) (sid : Nat)
    (tx : Option String) (a : Nat) (m : String) (st : PaymentStatus)
    (pg_tid pg_rtid : Option String) (d2 : DBState) (i : Nat)
    (h : create_payment today db sid tx a m st pg_tid pg_rtid = .ok (d2, i)) :
    d2.subscriptions = db.subscriptions := by
  unfold create_payment at h
  match tx with
  | none => cases h
  | some aid =>
    simp only at h
    cases hins : insertPayment db
        { id := db.nextId, subscription_id := sid, transaction_id := aid,
          pg_tid := pg_tid, amount := a, status := st, payment_method := m,
          paid_at := if st == .SUCCESS then some today else none,
          pg_response_tid := pg_rtid } with
    | error e =>
      rw [hins] at h
      cases h
    | ok db2 =>
      rw [hins] at h
      simp only at h
      cases h
      exact insertPayment_subscriptions db _ _ hins

theorem create_payment_payUnique (today : Nat) (db : DBState) (sid : Nat)
    (tx : Option String) (a : Nat) (m : String) (st : PaymentStatus)
    (pg_tid pg_rtid : Option String) (d2 : DBState) (i : Nat)
    (h : create_payment today db sid tx a m st pg_tid pg_rtid = .ok (d2, i))
    (hg : payUnique db) : payUnique d2 := by
  unfold create_payment at h
  match tx with
  | none => cases h
  | some aid =>
    simp only at h
    cases hins : insertPayment db
        { id := db.nextId, subscription_id := sid, transaction_id := aid,
          pg_tid := pg_tid, amount := a, status := st, payment_method := m,
          paid_at := if st == .SUCCESS then some today else none,
          pg_response_tid := pg_rtid } with
    | error e =>
      rw [hins] at h
      cases h
    | ok db2 =>
      rw [hins] at h
      simp only at h
      cases h
      exact payUnique_insertPayment db _ _ hins hg

theorem cancel_crud_shape (today : Nat) (db : DBState) (sid : Nat) (reason : String)
    (db2 : DBState) (h : cancel_subscription_crud today db sid reason = .ok db2) :
    db2.payments = db.payments
      ∧ db2.subscriptions = db.subscriptions.map (fun r =>
        if r.id == sid then
          { r with
            status := SubscriptionStatus.CANCELLED
            end_date := some today
            cancel_reason := some reason
            pg_customer_key := none }
        else r) := by
  unfold cancel_subscription_crud at h
  split at h
  · cases h
  · cases h
    exact ⟨rfl, rfl⟩

theorem mark_refunded_shape (db : DBState) (pid : Nat) (d : DBState)
    (h : mark_refunded db pid = .ok d) :
    d.subscriptions = db.subscriptions
      ∧ d.payments = db.payments.map (fun q =>
        if q.id == pid then { q with status := PaymentStatus.REFUNDED } else q) := by
  unfold mark_refunded at h
  split at h
  · cases h
  · cases h
    exact ⟨rfl, rfl⟩

/-- The ledger state after a refund attempt: subscriptions unchanged, and
payments either unchanged or with one row's status flipped to REFUNDED. -/
theorem cancelRefundStep_shape (db : DBState) (sid : Nat) (reason : String)
    (gwCancel : CancelGwOutcome) (db1 : DBState) (refund : Nat) (st : String)
    (calls : List CancelCall)
    (h : cancelRefundStep db sid reason gwCancel = .ok (db1, refund, st, calls)) :
    db1.subscriptions = db.subscriptions
      ∧ (db1.payments = db.payments ∨ ∃ pid, db1.payments = db.payments.map (fun q =>
          if q.id == pid then { q with status := PaymentStatus.REFUNDED } else q)) := by
  unfold cancelRefundStep at h
  split at h
  · cases h
    exact ⟨rfl, Or.inl rfl⟩
  · rename_i p hrp
    split at h
    · cases h
      exact ⟨rfl, Or.inl rfl⟩
    · rename_i t htfc
      split at h
      · rename_i u hsvc
        cases hd : mark_refunded db p.id with
        | error e =>
          rw [hd] at h
          cases h
        | ok d =>
          rw [hd] at h
          simp only at h
          cases h
          rcases mark_refunded_shape db p.id _ hd with ⟨h1, h2⟩
          exact ⟨h1, Or.inr ⟨p.id, h2⟩⟩
      · rename_i msg hsvc
        split at h
        · cases h
          exact ⟨rfl, Or.inl rfl⟩
        · cases h
          exact ⟨rfl, Or.inl rfl⟩

theorem groupUnique_approve_core (today : Nat) (cache : PaymentCache) (db : DBState)
    (tid : String) (dupSeen obs : Option Subscription)
    (gw : GatewayResult ApproveGwResponse) (cf : Bool)
    (hg : groupUnique db) :
    groupUnique (approve_core today cache db tid dupSeen obs gw cf).db := by
  unfold approve_core
  split
  · exact hg
  · rename_i info hinfo
    split
    · exact hg
    · split
      · exact hg
      · exact hg
      · rename_i resp
        rcases hu : upsert_with_observation today db obs info.group_id info.user_id
            info.amount (if info.is_subscription then resp.sid else none) with e | ⟨db1, subId⟩
        · simp only [hu]
          exact hg
        · rcases hc : create_payment today db1 subId resp.aid info.amount
              (if info.is_subscription then "kakao_pay_subscription" else "kakao_pay")
              .SUCCESS (some tid) resp.tid with e | ⟨db2, payId⟩
          · simp [hu, hc]
            exact hg
          · have h1 := upsert_obs_groupUnique today db obs info.group_id info.user_id
              info.amount (if info.is_subscription then resp.sid else none) db1 subId hu hg
            have h2 := create_payment_subscriptions today db1 subId resp.aid
              info.amount (if info.is_subscription then "kakao_pay_subscription" else "kakao_pay")
              .SUCCESS (some tid) resp.tid db2 payId hc
            have hg2 : groupUnique db2 := by
              unfold groupUnique at *
              rw [h2]
              exact h1
            cases cf
            · simp [hu, hc]
              exact hg2
            · simp [hu, hc]
              exact hg

theorem payUnique_approve_core (today : Nat) (cache : PaymentCache) (db : DBState)
    (tid : String) (dupSeen obs : Option Subscription)
    (gw : GatewayResult ApproveGwResponse) (cf : Bool)
    (hg : payUnique db) :
    payUnique (approve_core today cache db tid dupSeen obs gw cf).db := by
  unfold approve_core
  split
  · exact hg
  · rename_i info hinfo
    split
    · exact hg
    · split
      · exact hg
      · exact hg
      · rename_i resp
        rcases hu : upsert_with_observation today db obs info.group_id info.user_id
            info.amount (if info.is_subscription then resp.sid else none) with e | ⟨db1, subId⟩
        · simp only [hu]
          exact hg
        · rcases hc : create_payment today db1 subId resp.aid info.amount
              (if info.is_subscription then "kakao_pay_subscription" else "kakao_pay")
              .SUCCESS (some tid) resp.tid with e | ⟨db2, payId⟩
          · simp [hu, hc]
            exact hg
          · have h1 := upsert_obs_payments today db obs info.group_id info.user_id
              info.amount (if info.is_subscription then resp.sid else none) db1 subId hu
            have hg1 : payUnique db1 := by
              unfold payUnique
              rw [h1]
              exact hg
            have hg2 := create_payment_payUnique today db1 subId resp.aid
              info.amount (if info.is_subscription then "kakao_pay_subscription" else "kakao_pay")
              .SUCCESS (some tid) resp.tid db2 payId hc hg1
            cases cf
            · simp [hu, hc]
              exact hg2
            · simp [hu, hc]
              exact hg

theorem groupUnique_route_cancel (today : Nat) (db : DBState) (sid : Nat)
    (reason : String) (user : Nat) (gwc : CancelGwOutcome) (o : CancelRouteOutcome)
    (h : route_cancel_subscription today db sid reason user gwc = .ok o)
    (hg : groupUnique db) : groupUnique o.db := by
  unfold route_cancel_subscription at h
  split at h
  · cases h
  · split at h
    · cases h
    · split at h
      · cases h
        exact hg
      · rcases cancelRefundStep_ok db sid reason gwc with ⟨db1, refund, st, calls, hstep, hsubs⟩
        rw [hstep] at h
        unfold cancelFinish at h
        simp only at h
        cases hcc : cancel_subscription_crud today db1 sid reason with
        | error e =>
          rw [hcc] at h
          cases h
        | ok db2 =>
          rw [hcc] at h
          simp only at h
          cases h
          rcases cancel_crud_shape today db1 sid reason db2 hcc with ⟨_, hs⟩
          unfold groupUnique at *
          rw [hs, hsubs]
          exact pairwise_group_map _ _
            (fun r => by by_cases hc2 : (r.id == sid) = true <;> simp [hc2]) hg

theorem payUnique_route_cancel (today : Nat) (db : DBState) (sid : Nat)
    (reason : String) (user : Nat) (gwc : CancelGwOutcome) (o : CancelRouteOutcome)
    (h : route_cancel_subscription today db sid reason user gwc = .ok o)
    (hg : payUnique db) : payUnique o.db := by
  unfold route_cancel_subscription at h
  split at h
  · cases h
  · split at h
    · cases h
    · split at h
      · cases h
        exact hg
      · rcases cancelRefundStep_ok db sid reason gwc with ⟨db1, refund, st, calls, hstep, hsubs⟩
        have hpay := (cancelRefundStep_shape db sid reason gwc db1 refund st calls hstep).2
        rw [hstep] at h
        unfold cancelFinish at h
        simp only at h
        cases hcc : cancel_subscription_crud today db1 sid reason with
        | error e =>
          rw [hcc] at h
          cases h
        | ok db2 =>
          rw [hcc] at h
          simp only at h
          cases h
          rcases cancel_crud_shape today db1 sid reason db2 hcc with ⟨hp, _⟩
          unfold payUnique at *
          rw [hp]
          rcases hpay with hpay | ⟨pid, hpay⟩
          · rw [hpay]
            exact hg
          · rw [hpay]
            exact pairwise_tid_map _ _
              (fun q => by by_cases hc2 : (q.id == pid) = true <;> simp [hc2]) hg

theorem groupUnique_charge (today : Nat) (db : DBState) (sub : Subscription)
    (gw : GatewayResult RecurGwResponse) (hg : groupUnique db) :
    groupUnique (charge_recurring_payment today db sub gw).db := by
  unfold charge_recurring_payment
  split
  · rename_i resp
    rcases hc : create_payment today db sub.id resp.aid sub.amount
        "kakao_pay_subscription" .SUCCESS resp.tid resp.tid with e | ⟨db1, i⟩
    · simp only [hc]
      exact hg
    · simp only [hc]
      have h2 := create_payment_subscriptions today db sub.id resp.aid sub.amount
        "kakao_pay_subscription" .SUCCESS resp.tid resp.tid db1 i hc
      unfold update_next_billing_date groupUnique at *
      simp only
      rw [h2]
      exact pairwise_group_map _ _
        (fun r => by by_cases hc2 : (r.id == sub.id) = true <;> simp [hc2]) hg
  · unfold expire_subscription groupUnique at *
    exact pairwise_group_map _ _
      (fun r => by by_cases hc2 : (r.id == sub.id) = true <;> simp [hc2]) hg
  · exact hg

theorem payUnique_charge (today : Nat) (db : DBState) (sub : Subscription)
    (gw : GatewayResult RecurGwResponse) (hg : payUnique db) :
    payUnique (charge_recurring_payment today db sub gw).db := by
  unfold charge_recurring_payment
  split
  · rename_i resp
    rcases hc : create_payment today db sub.id resp.aid sub.amount
        "kakao_pay_subscription" .SUCCESS resp.tid resp.tid with e | ⟨db1, i⟩
    · simp only [hc]
      exact hg
    · simp only [hc]
      have h2 := create_payment_payUnique today db sub.id resp.aid sub.amount
        "kakao_pay_subscription" .SUCCESS resp.tid resp.tid db1 i hc hg
      unfold update_next_billing_date payUnique at *
      simp only
      exact h2
  · exact hg
  · exact hg

theorem groupUnique_stepDB (today : Nat) (db : DBState) (s : Step)
    (hg : groupUnique db) : groupUnique (stepDB today db s) := by
  cases s with
  | prepareStep => exact hg
  | approveStep info dupSeen obs gw cf =>
    exact groupUnique_approve_core today [(info.tid, info)] db info.tid dupSeen obs gw cf hg
  | cancelStep sid reason user gwc =>
    simp only [stepDB]
    cases h : route_cancel_subscription today db sid reason user gwc with
    | error e => simpa using hg
    | ok o => simpa using groupUnique_route_cancel today db sid reason user gwc o h hg
  | expireStep sid reason =>
    unfold stepDB expire_subscription
    exact pairwise_group_map _ _
      (fun r => by by_cases hc : (r.id == sid) = true <;> simp [hc]) hg
  | recurStep sub gw =>
    exact groupUnique_charge today db sub gw hg

theorem payUnique_stepDB (today : Nat) (db : DBState) (s : Step)
    (hg : payUnique db) : payUnique (stepDB today db s) := by
  cases s with
  | prepareStep => exact hg
  | approveStep info dupSeen obs gw cf =>
    exact payUnique_approve_core today [(info.tid, info)] db info.tid dupSeen obs gw cf hg
  | cancelStep sid reason user gwc =>
    simp only [stepDB]
    cases h : route_cancel_subscription today db sid reason user gwc with
    | error e => simpa using hg
    | ok o => simpa using payUnique_route_cancel today db sid reason user gwc o h hg
  | expireStep sid reason =>
    exact hg
  | recurStep sub gw =>
    exact payUnique_charge today db sub gw hg

theorem groupUnique_run (init : DBState) (steps : List (Nat × Step))
    (hg : groupUnique init) : groupUnique (run init steps) := by
  induction steps generalizing init with
  | nil => exact hg
  | cons ts rest ih => exact ih _ (groupUnique_stepDB ts.fst init ts.snd hg)

theorem payUnique_run (init : DBState) (steps : List (Nat × Step))
    (hg : payUnique init) : payUnique (run init steps) := by
  induction steps generalizing init with
  | nil => exact hg
  | cons ts rest ih => exact ih _ (payUnique_stepDB ts.fst init ts.snd hg)

theorem filter_active_length_le_one (l : List Subscription)
    (hp : l.Pairwise (fun a b => a.group_id ≠ b.group_id)) (g : Nat) :
    (l.filter (fun r => r.group_id == g && r.status == SubscriptionStatus.ACTIVE)).length ≤ 1 := by
  match h : l.filter (fun r => r.group_id == g && r.status == SubscriptionStatus.ACTIVE) with
  | [] => simp [h]
  | [a] => simp [h]
  | a :: b :: t =>
    exfalso
    have hpf := hp.filter (fun r => r.group_id == g && r.status == SubscriptionStatus.ACTIVE)
    rw [h] at hpf
    have hab := (List.pairwise_cons.mp hpf).1 b (by simp)
    have ha : a ∈ l.filter (fun r => r.group_id == g && r.status == SubscriptionStatus.ACTIVE) := by
      rw [h]
      simp
    have hb : b ∈ l.filter (fun r => r.group_id == g && r.status == SubscriptionStatus.ACTIVE) := by
      rw [h]
      simp
    have ha2 := List.of_mem_filter ha
    have hb2 := List.of_mem_filter hb
    simp only [Bool.and_eq_true, beq_iff_eq] at ha2 hb2
    exact hab (by rw [ha2.1, hb2.1])

/-- `C1`: starting from any ledger that satisfies the unique-group
constraint of the schema, at most one ACTIVE subscription row per group
exists in every reachable state: every core operation — prepare (no ledger
write), approve/activate (with arbitrarily stale reads, covering two racing
approve calls for the same group), subscriber cancel, expire, recurring
charge — preserves it, because updates never change a row's group and
inserts are re-checked against the unique-group constraint at flush time. -/
theorem C1_at_most_one_active_per_group (init : DBState) (steps : List (Nat × Step))
    (hg : groupUnique init) : atMostOneActivePerGroup (run init steps) := by
  intro g
  exact filter_active_length_le_one _ (groupUnique_run init steps hg) g

/-- Witness for `C1_at_most_one_active_per_group`: two racing approve calls
for group 10 (both prepared transactions observed no existing subscription —
`obs = none` — before either committed). -/
theorem C1_witness :
    groupUnique { subscriptions := [], payments := [], nextId := 1 }
    ∧ atMostOneActivePerGroup (run { subscriptions := [], payments := [], nextId := 1 }
        [(40, .approveStep infoFix none none
            (.ok { aid := some "A1", sid := none, tid := some "TID1" }) false),
         (40, .approveStep { infoFix with tid := "TID2" } none none
            (.ok { aid := some "A2", sid := none, tid := some "TID2" }) false)]) :=
  ⟨List.Pairwise.nil,
   C1_at_most_one_active_per_group { subscriptions := [], payments := [], nextId := 1 }
     [(40, .approveStep infoFix none none
         (.ok { aid := some "A1", sid := none, tid := some "TID1" }) false),
      (40, .approveStep { infoFix with tid := "TID2" } none none
         (.ok { aid := some "A2", sid := none, tid := some "TID2" }) false)]
     List.Pairwise.nil⟩

/-- `C10`: payment rows carry pairwise-distinct gateway approval transaction
ids in every reachable state (the UNIQUE constraint on
`payments.transaction_id` is enforced at every insert), and a replayed
approval whose approval id is already recorded cannot create a second
Payment row: the local write fails, the transaction rolls back leaving the
ledger unchanged, and the compensating gateway cancel runs instead. -/
theorem C10_payment_ids_unique_and_replay_compensated :
    (∀ (init : DBState) (steps : List (Nat × Step)),
      payUnique init → payUnique (run init steps))
    ∧ (∀ (today : Nat) (cache : PaymentCache) (db : DBState) (tid : String)
        (info : PaymentInfo) (resp : ApproveGwResponse) (aid : String),
      cacheGet cache tid = some info → duplicateCheck db info = false →
      resp.aid = some aid → (∃ p ∈ db.payments, p.transaction_id = aid) →
      (approve_payment today cache db tid (.ok resp) false).result
          = .error "결제 승인 후 내부 저장 실패로 결제를 원복했습니다"
        ∧ (approve_payment today cache db tid (.ok resp) false).db = db
        ∧ (approve_payment today cache db tid (.ok resp) false).cancelCalls
          = [{ tid := tid, cancel_amount := info.amount, cancel_reason := "DB 저장 실패 원복" }]) := by
  constructor
  · exact payUnique_run
  · intro today cache db tid info resp aid hcache hdup haid hex
    rcases hex with ⟨p, hp, hpt⟩
    unfold duplicateCheck at hdup
    rcases hu : upsert_with_observation today db (get_any_by_group_id db info.group_id)
        info.group_id info.user_id info.amount
        (if info.is_subscription then resp.sid else none) with e | ⟨db1, subId⟩
    · have hred : approve_payment today cache db tid (.ok resp) false
          = { result := .error "결제 승인 후 내부 저장 실패로 결제를 원복했습니다", db := db,
              cache := cacheRemove cache tid,
              cancelCalls := [{ tid := tid, cancel_amount := info.amount,
                                cancel_reason := "DB 저장 실패 원복" }],
              approveCalled := true } := by
        simp [approve_payment, approve_core, hcache, hdup, hu]
      rw [hred]
      exact ⟨rfl, rfl, rfl⟩
    · have hpay : db1.payments = db.payments :=
        upsert_obs_payments today db _ info.group_id info.user_id info.amount
          (if info.is_subscription then resp.sid else none) db1 subId hu
      have hany : (db1.payments.any (fun x => x.transaction_id == aid)) = true := by
        rw [hpay]
        exact List.any_eq_true.mpr ⟨p, hp, by simp [hpt]⟩
      have hc : create_payment today db1 subId resp.aid info.amount
          (if info.is_subscription then "kakao_pay_subscription" else "kakao_pay")
          .SUCCESS (some tid) resp.tid = .error .uniqueTid := by
        unfold create_payment
        rw [haid]
        simp [insertPayment, hany]
      have hred : approve_payment today cache db tid (.ok resp) false
          = { result := .error "결제 승인 후 내부 저장 실패로 결제를 원복했습니다", db := db,
              cache := cacheRemove cache tid,
              cancelCalls := [{ tid := tid, cancel_amount := info.amount,
                                cancel_reason := "DB 저장 실패 원복" }],
              approveCalled := true } := by
        simp [approve_payment, approve_core, hcache, hdup, hu, hc]
      rw [hred]
      exact ⟨rfl, rfl, rfl⟩

/-- Witness for `C10_payment_ids_unique_and_replay_compensated`: replaying
approval id A1 against a ledger that already recorded it rolls back and
compensates. -/
theorem C10_witness :
    (approve_payment 40 cacheFix { subscriptions := [], payments := [payFix], nextId := 8 }
        "TID1" (.ok { aid := some "A1", sid := none, tid := some "TID1" }) false).result
        = .error "결제 승인 후 내부 저장 실패로 결제를 원복했습니다"
    ∧ (approve_payment 40 cacheFix { subscriptions := [], payments := [payFix], nextId := 8 }
        "TID1" (.ok { aid := some "A1", sid := none, tid := some "TID1" }) false).db
        = { subscriptions := [], payments := [payFix], nextId := 8 } :=
  ⟨(C10_payment_ids_unique_and_replay_compensated.2 40 cacheFix
      { subscriptions := [], payments := [payFix], nextId := 8 } "TID1" infoFix
      { aid := some "A1", sid := none, tid := some "TID1" } "A1"
      (by decide) (by decide) rfl ⟨payFix, by decide, rfl⟩).1,
   (C10_payment_ids_unique_and_replay_compensated.2 40 cacheFix
      { subscriptions := [], payments := [payFix], nextId := 8 } "TID1" infoFix
      { aid := some "A1", sid := none, tid := some "TID1" } "A1"
      (by decide) (by decide) rfl ⟨payFix, by decide, rfl⟩).2.1⟩

end Tendayship
